import Mathlib

/-!
# Pod restart Slack operator: event watcher and Slack notifier

A shallow embedding of `pkg/events/watcher.go`, `pkg/slack/client.go` and the
types of `api/v1/slackalert_types.go`, followed by theorems about them.

Conventions of the embedding:

* Go strings are Lean strings; Go maps are association lists with distinct keys
  (`AList`), iterated in the order of their entry list.  Go leaves the iteration
  order unspecified, and every entry order is the entry list of some `AList`, so
  a statement about all maps covers all iteration orders.
* Library functions (`strings.ToLower`, `metav1.LabelSelectorAsSelector`,
  `json.Marshal`) are fields of `Library`.  `fmt.Sprintf` on string operands is
  `sprintfChars` for literal text, `%%`, `%s` and `%v`; every other directive is
  left to a field of `Library`.  Reads through the controller-runtime client are
  fields of `Cluster`, read once per handled event.  The webhook endpoint, the
  clock, the status writer and the event stream are oracles over a world state
  `σ` (`World σ`).
* `int32` values are integers kept in range by `wrapInt32`.
* Records are stored by value; the registry of the Go code stores pointers, and
  `handlePodRestartEvent` writes the advanced status back at the record's key.
* The log lines of the watcher are kept as a list of `LogEntry`; the two lines
  written after `SendPodRestartAlert` returns record the calls of the notifier.
* The registry is accessed by one caller at a time.
-/

namespace PodRestartOperator

/-! ## Data model -/

/-- Label maps (`map[string]string`), read with `labelValue`. -/
abbrev Labels := List (String × String)

/-- Value of a label, if the key is present. -/
def labelValue (ls : Labels) (key : String) : Option String :=
  (ls.find? (fun kv => kv.1 == key)).map Prod.snd

/-- The type `metav1.LabelSelectorRequirement`. -/
structure LabelSelectorRequirement where
  Key : String
  Operator : String
  Values : List String
deriving DecidableEq, Repr

/-- The type `metav1.LabelSelector`. -/
structure LabelSelector where
  MatchLabels : Labels
  MatchExpressions : List LabelSelectorRequirement
deriving DecidableEq, Repr

/-- The type `SlackAlertSpec` of `api/v1`. -/
structure SlackAlertSpec where
  WebhookURL : String
  Channel : String
  Username : String
  NamespaceSelector : Option LabelSelector
  PodSelector : Option LabelSelector
  Enabled : Bool
  MessageTemplate : String
deriving DecidableEq, Repr

/-- The type `SlackAlertStatus` of `api/v1`; times are instants of the clock,
`EventCount` is an `int32`. -/
structure SlackAlertStatus where
  Conditions : List String
  LastEventTime : Option Int
  EventCount : Int
deriving DecidableEq, Repr

/-- The type `SlackAlert` of `api/v1`, with the two fields of `ObjectMeta` the
watcher reads. -/
structure SlackAlert where
  Namespace : String
  Name : String
  Spec : SlackAlertSpec
  Status : SlackAlertStatus
deriving DecidableEq, Repr

/-- The type `corev1.ObjectReference`, fields read by the watcher. -/
structure ObjectReference where
  Kind : String
  Name : String
  Namespace : String
deriving DecidableEq, Repr

/-- The type `corev1.Event`, fields read by the watcher and the notifier. -/
structure Event where
  Name : String
  Reason : String
  Message : String
  EventType : String
  InvolvedObject : ObjectReference
deriving DecidableEq, Repr

/-- The type `corev1.ContainerStatus`; `RestartCount` is an `int32`. -/
structure ContainerStatus where
  Name : String
  RestartCount : Int
deriving DecidableEq, Repr

/-- The type `corev1.PodStatus`. -/
structure PodStatus where
  ContainerStatuses : List ContainerStatus
deriving DecidableEq, Repr

/-- The type `corev1.Pod`. -/
structure Pod where
  Name : String
  Namespace : String
  Labels : Labels
  Status : PodStatus
deriving DecidableEq, Repr

/-- The type `corev1.Namespace`. -/
structure NamespaceObj where
  Name : String
  Labels : Labels
deriving DecidableEq, Repr

/-! ## Slack message types (`pkg/slack/client.go`) -/

/-- The type `Field` of a Slack attachment. -/
structure Field where
  Title : String
  Value : String
  Short : Bool
deriving DecidableEq, Repr

/-- The type `Attachment`; `Timestamp` is Unix seconds. -/
structure Attachment where
  Color : String
  Title : String
  Text : String
  Fields : List Field
  Timestamp : Int
deriving DecidableEq, Repr

/-- The type `SlackMessage`. -/
structure SlackMessage where
  Channel : String
  Username : String
  Text : String
  Attachments : List Attachment
deriving DecidableEq, Repr

/-- The zero value of `SlackMessage` (`var message SlackMessage`). -/
def SlackMessage.zero : SlackMessage :=
  { Channel := "", Username := "", Text := "", Attachments := [] }

/-- The type `http.Client`, with the one field the code sets (a duration in
nanoseconds). -/
structure HTTPClient where
  Timeout : Nat
deriving DecidableEq, Repr

/-- The type `Client` of package `slack`: the notifier handle. -/
structure Client where
  webhookURL : String
  httpClient : HTTPClient
deriving DecidableEq, Repr

/-- Outcome of `httpClient.Post`: a transport error or a response with its
status code. -/
inductive PostResult where
  | transportError (cause : String)
  | response (StatusCode : Int)
deriving DecidableEq, Repr

/-- Errors returned by `sendMessage` and, wrapped, by `SendPodRestartAlert`. -/
inductive SlackError where
  /-- The error "failed to marshal slack message: %w". -/
  | marshalFailed (cause : String)
  /-- The error "failed to send slack message: %w". -/
  | postFailed (cause : String)
  /-- The error "slack webhook returned non-200 status: %d". -/
  | non200Status (StatusCode : Int)
  /-- The error "failed to send slack alert for pod %s/%s: %w". -/
  | alertFailed (podNamespace podName : String) (cause : SlackError)
deriving DecidableEq, Repr

/-- Library functions the code calls and this repository does not define. -/
structure Library where
  /-- The function `strings.ToLower`. -/
  ToLower : String → String
  /-- The function `metav1.LabelSelectorAsSelector` followed by
  `Selector.Matches`: `none` is a conversion error, `some m` the predicate of
  the selector on label sets. -/
  LabelSelectorAsSelector : LabelSelector → Option (Labels → Bool)
  /-- The function `json.Marshal` on a `SlackMessage`: the payload or the cause
  of the error. -/
  Marshal : SlackMessage → Except String String
  /-- Output of `fmt.Sprintf` from a directive that `sprintfChars` does not
  interpret (flags, width, precision, argument index, a verb other than `s`,
  `v`): given the format after the percent sign and the operands left. -/
  FormatDirective : List Char → List String → List Char

/-- Reads through the controller-runtime client: `client.Get` for a pod
(namespace, name) and for a namespace (name); `none` is an error. -/
structure Cluster where
  getPod : String → String → Option Pod
  getNamespace : String → Option NamespaceObj

/-! ## Event classifier (`isPodRestartEvent`) -/

/-- Substring test on character lists. -/
def containsChars : List Char → List Char → Bool
  | [], sub => sub.isEmpty
  | c :: s, sub => sub.isPrefixOf (c :: s) || containsChars s sub

/-- The function `strings.Contains`. -/
def Contains (s substr : String) : Bool :=
  containsChars s.data substr.data

/-- The slice `restartReasons` of `isPodRestartEvent`. -/
def restartReasons : List String :=
  ["Killing", "BackOff", "FailedMount", "Failed", "Unhealthy"]

/-- The method `isPodRestartEvent` (watcher.go, lines 98-116). -/
def isPodRestartEvent (L : Library) (event : Event) : Bool :=
  if restartReasons.any (fun reason => event.Reason == reason) then true
  else
    Contains (L.ToLower event.Message) "restart" ||
    Contains (L.ToLower event.Message) "restarting" ||
    Contains (L.ToLower event.Message) "killed"

/-! ## Selector matcher (`shouldSendAlert`) -/

/-- The method `shouldSendAlert` (watcher.go, lines 162-192). -/
def shouldSendAlert (L : Library) (c : Cluster) (alert : SlackAlert) (pod : Pod) : Bool :=
  let nsOk : Bool :=
    match alert.Spec.NamespaceSelector with
    | none => true
    | some ls =>
      match L.LabelSelectorAsSelector ls with
      | none => false
      | some selector =>
        match c.getNamespace pod.Namespace with
        | none => false
        | some ns => selector ns.Labels
  if !nsOk then false
  else
    match alert.Spec.PodSelector with
    | none => true
    | some ls =>
      match L.LabelSelectorAsSelector ls with
      | none => false
      | some selector => selector pod.Labels

/-! ## Notifier (`pkg/slack/client.go`) -/

/-- The function `NewClient` (client.go, lines 39-46): the timeout is
`30 * time.Second`. -/
def NewClient (webhookURL : String) : Client :=
  { webhookURL := webhookURL, httpClient := { Timeout := 30 * 1000000000 } }

/-- What `fmt.Sprintf` appends for string operands no directive consumed. -/
def extraOperands (args : List String) : List Char :=
  if args.isEmpty then []
  else "%!(EXTRA ".data ++ (", ".intercalate (args.map (fun a => "string=" ++ a))).data ++ [')']

/-- The function `fmt.Sprintf` on string operands, for formats made of literal
text, `%%`, `%s` and `%v`; any other directive is handed to `other`. -/
def sprintfChars (other : List Char → List String → List Char) :
    List Char → List String → List Char
  | [], args => extraOperands args
  | c :: rest, args =>
    if c = '%' then
      match rest with
      | [] => "%!(NOVERB)".data ++ extraOperands args
      | v :: rest' =>
        if v = '%' then '%' :: sprintfChars other rest' args
        else if v = 's' ∨ v = 'v' then
          match args with
          | [] => "%!".data ++ v :: "(MISSING)".data ++ sprintfChars other rest' []
          | a :: args' => a.data ++ sprintfChars other rest' args'
        else other (v :: rest') args
    else c :: sprintfChars other rest args

/-- The function `fmt.Sprintf` applied to a format and string operands. -/
def Sprintf (L : Library) (format : String) (args : List String) : String :=
  String.mk (sprintfChars L.FormatDirective format.data args)

/-- The method `formatCustomMessage` (client.go, lines 121-125). -/
def formatCustomMessage (L : Library) (template : String) (pod : Pod) (event : Event) : String :=
  Sprintf L template [pod.Name, pod.Namespace, event.Reason, event.Message]

/-- The loop of `createDefaultMessage` (client.go, lines 106-114): one field
per container status, appended in order. -/
def containerFields (statuses : List ContainerStatus) : List Field :=
  statuses.map (fun cs =>
    { Title := "Container: " ++ cs.Name,
      Value := "Restart Count: " ++ toString cs.RestartCount,
      Short := true })

/-- The method `createDefaultMessage` (client.go, lines 71-119); `unixNow` is
the value of `time.Now().Unix()`. -/
def createDefaultMessage (unixNow : Int) (pod : Pod) (event : Event) : SlackMessage :=
  let color := if event.Reason = "Failed" then "danger" else "warning"
  let attachment : Attachment :=
    { Color := color,
      Title := "Pod Restart Alert: " ++ pod.Name,
      Text := "Pod `" ++ pod.Name ++ "` in namespace `" ++ pod.Namespace ++ "` has restarted",
      Timestamp := unixNow,
      Fields :=
        [ { Title := "Namespace", Value := pod.Namespace, Short := true },
          { Title := "Pod Name", Value := pod.Name, Short := true },
          { Title := "Reason", Value := event.Reason, Short := true },
          { Title := "Message", Value := event.Message, Short := false } ] ++
        containerFields pod.Status.ContainerStatuses }
  { SlackMessage.zero with Attachments := [attachment] }

/-- The error `ctx.Err()` of a finished context. -/
inductive CtxError where
  | canceled
  | deadlineExceeded
deriving DecidableEq, Repr

/-- The field `Object` of a `watch.Event`: a `*corev1.Event` or anything else. -/
inductive WatchObject where
  | event (e : Event)
  | other
deriving DecidableEq, Repr

/-- What one pass of the `select` statement of `WatchPodEvents` receives. -/
inductive Signal where
  /-- The case `<-ctx.Done()`, with the value of `ctx.Err()`. -/
  | ctxDone (err : CtxError)
  /-- The result channel is closed (`ok` is false). -/
  | closed
  /-- A value received from the result channel. -/
  | result (obj : WatchObject)
deriving DecidableEq, Repr

/-- The world outside the process, as oracles over a state `σ`. -/
structure World (σ : Type) where
  /-- The call `httpClient.Post(url, contentType, body)`. -/
  Post : σ → HTTPClient → String → String → String → PostResult × σ
  /-- The clock, in nanoseconds since the Unix epoch. -/
  now : σ → Int
  /-- The call `client.Status().Update(ctx, alert)`; its result is discarded. -/
  statusUpdate : σ → SlackAlert → σ
  /-- The cluster as the controller-runtime client reads it. -/
  cluster : σ → Cluster
  /-- The call `Events("").Watch(ctx, opts)`: `some cause` is an error. -/
  Watch : σ → Option String × σ
  /-- The next outcome of the `select` statement of `WatchPodEvents`. -/
  Select : σ → Signal × σ

/-- The method `sendMessage` (client.go, lines 127-144). -/
def sendMessage {σ : Type} (L : Library) (W : World σ) (c : Client) (s : σ)
    (message : SlackMessage) : Option SlackError × σ :=
  match L.Marshal message with
  | .error cause => (some (.marshalFailed cause), s)
  | .ok payload =>
    match W.Post s c.httpClient c.webhookURL "application/json" payload with
    | (.transportError cause, s') => (some (.postFailed cause), s')
    | (.response code, s') =>
      if code ≠ 200 then (some (.non200Status code), s') else (none, s')

/-- The message `SendPodRestartAlert` hands to `sendMessage` (client.go, lines
49-62). -/
def alertMessage (L : Library) (unixNow : Int) (pod : Pod) (event : Event)
    (channel username template : String) : SlackMessage :=
  let message :=
    if template ≠ "" then
      { SlackMessage.zero with Text := formatCustomMessage L template pod event }
    else createDefaultMessage unixNow pod event
  let message := if channel ≠ "" then { message with Channel := channel } else message
  if username ≠ "" then { message with Username := username } else message

/-- The method `SendPodRestartAlert` (client.go, lines 48-69): `none` is the
`nil` error. -/
def SendPodRestartAlert {σ : Type} (L : Library) (W : World σ) (c : Client) (s : σ)
    (pod : Pod) (event : Event) (channel username template : String) :
    Option SlackError × σ :=
  match sendMessage L W c s
      (alertMessage L (W.now s / 1000000000) pod event channel username template) with
  | (some err, s') => (some (.alertFailed pod.Namespace pod.Name err), s')
  | (none, s') => (none, s')

/-! ## Alert registry (`pkg/events/watcher.go`) -/

/-- The type `PodEventWatcher`: the two maps of the registry.  The clients of
the Go struct are the `Library`, `Cluster` and `World` arguments. -/
structure PodEventWatcher where
  slackClients : AList (fun _ : String => Client)
  alertConfigs : AList (fun _ : String => SlackAlert)

/-- The function `NewPodEventWatcher` (watcher.go, lines 27-34). -/
def NewPodEventWatcher : PodEventWatcher :=
  { slackClients := ∅, alertConfigs := ∅ }

/-- The key `fmt.Sprintf("%s/%s", namespace, name)`. -/
def alertKey (ns name : String) : String :=
  ns ++ "/" ++ name

/-- The method `UpdateAlertConfig` (watcher.go, lines 36-45). -/
def UpdateAlertConfig (w : PodEventWatcher) (alert : SlackAlert) : PodEventWatcher :=
  let key := alertKey alert.Namespace alert.Name
  let configs := w.alertConfigs.insert key alert
  if alert.Spec.Enabled then
    { slackClients := w.slackClients.insert key (NewClient alert.Spec.WebhookURL),
      alertConfigs := configs }
  else
    { slackClients := w.slackClients.erase key, alertConfigs := configs }

/-- The method `RemoveAlertConfig` (watcher.go, lines 47-51). -/
def RemoveAlertConfig (w : PodEventWatcher) (ns name : String) : PodEventWatcher :=
  let key := alertKey ns name
  { slackClients := w.slackClients.erase key, alertConfigs := w.alertConfigs.erase key }

/-- A call on the registry. -/
inductive RegistryOp where
  | update (alert : SlackAlert)
  | remove (ns name : String)
deriving DecidableEq, Repr

/-- One call applied to the registry. -/
def applyOp (w : PodEventWatcher) : RegistryOp → PodEventWatcher
  | .update alert => UpdateAlertConfig w alert
  | .remove ns name => RemoveAlertConfig w ns name

/-- A sequence of calls applied, in order, to the registry. -/
def applyOps (w : PodEventWatcher) (ops : List RegistryOp) : PodEventWatcher :=
  ops.foldl applyOp w

/-! ## Event handling (`handlePodRestartEvent`) -/

/-- Lines the watcher writes to its logger. -/
inductive LogEntry where
  /-- The line "Started watching pod events". -/
  | started
  /-- The line "Event watcher channel closed, restarting...". -/
  | channelClosed
  /-- The line "Detected pod restart event" with pod, namespace and reason. -/
  | detected (pod ns reason : String)
  /-- The line "Failed to handle pod restart event" with event and pod. -/
  | handleFailed (event pod : String)
  /-- The line "Failed to send Slack alert" with the error, alert key and pod. -/
  | sendFailed (err : SlackError) (alert pod : String)
  /-- The line "Sent pod restart alert" with alert key, pod and namespace. -/
  | sent (alert pod ns : String)
deriving DecidableEq, Repr

/-- The value of an `int32` after arithmetic on it. -/
def wrapInt32 (x : Int) : Int :=
  (x + 2147483648) % 4294967296 - 2147483648

/-- The method `updateAlertStatus` (watcher.go, lines 194-200): the advanced
record and the world after the status write. -/
def updateAlertStatus {σ : Type} (W : World σ) (s : σ) (alert : SlackAlert) : SlackAlert × σ :=
  let now := W.now s
  let alert' : SlackAlert :=
    { alert with
      Status :=
        { alert.Status with
          LastEventTime := some now,
          EventCount := wrapInt32 (alert.Status.EventCount + 1) } }
  (alert', W.statusUpdate s alert')

/-- State of the loop of `handlePodRestartEvent`: the record map (records are
changed in place through their pointers), the log lines written, the world. -/
structure HandleState (σ : Type) where
  alertConfigs : AList (fun _ : String => SlackAlert)
  log : List LogEntry
  world : σ

/-- The body of the loop of `handlePodRestartEvent` for one entry of the map
(watcher.go, lines 131-156). -/
def handleAlert {σ : Type} (L : Library) (W : World σ) (c : Cluster)
    (slackClients : AList (fun _ : String => Client)) (pod : Pod) (event : Event)
    (key : String) (alert : SlackAlert) (st : HandleState σ) : HandleState σ :=
  if !alert.Spec.Enabled then st
  else if shouldSendAlert L c alert pod then
    match slackClients.lookup key with
    | none => st
    | some slackClient =>
      match SendPodRestartAlert L W slackClient st.world pod event
          alert.Spec.Channel alert.Spec.Username alert.Spec.MessageTemplate with
      | (some err, s') =>
        { st with log := st.log ++ [.sendFailed err key pod.Name], world := s' }
      | (none, s') =>
        let r := updateAlertStatus W s' alert
        { alertConfigs := st.alertConfigs.replace key r.1,
          log := st.log ++ [.sent key pod.Name pod.Namespace],
          world := r.2 }
  else st

/-- The loop `for key, alert := range w.alertConfigs` over the entries in
iteration order. -/
def handleAlerts {σ : Type} (L : Library) (W : World σ) (c : Cluster)
    (slackClients : AList (fun _ : String => Client)) (pod : Pod) (event : Event) :
    List (Sigma (fun _ : String => SlackAlert)) → HandleState σ → HandleState σ
  | [], st => st
  | e :: rest, st =>
    handleAlerts L W c slackClients pod event rest
      (handleAlert L W c slackClients pod event e.1 e.2 st)

/-- Errors returned by `handlePodRestartEvent`. -/
inductive HandleError where
  /-- The error "failed to get pod %s/%s: %w". -/
  | getPodFailed (ns name : String)
deriving DecidableEq, Repr

/-- Result of `handlePodRestartEvent`: the returned error (`none` is `nil`),
the registry, the log lines written by the call, the world. -/
structure HandleResult (σ : Type) where
  err : Option HandleError
  watcher : PodEventWatcher
  log : List LogEntry
  world : σ

/-- The method `handlePodRestartEvent` (watcher.go, lines 118-160). -/
def handlePodRestartEvent {σ : Type} (L : Library) (W : World σ) (c : Cluster)
    (w : PodEventWatcher) (s : σ) (event : Event) : HandleResult σ :=
  match c.getPod event.InvolvedObject.Namespace event.InvolvedObject.Name with
  | none =>
    { err := some (.getPodFailed event.InvolvedObject.Namespace event.InvolvedObject.Name),
      watcher := w, log := [], world := s }
  | some pod =>
    let st := handleAlerts L W c w.slackClients pod event w.alertConfigs.entries
      { alertConfigs := w.alertConfigs, log := [], world := s }
    { err := none,
      watcher := { slackClients := w.slackClients, alertConfigs := st.alertConfigs },
      log := st.log, world := st.world }

/-! ## Watch loop (`WatchPodEvents`) -/

/-- Errors returned by `WatchPodEvents`. -/
inductive WatchError where
  /-- The error "failed to create event watcher: %w". -/
  | createFailed (cause : String)
  /-- The error `ctx.Err()`. -/
  | ctx (err : CtxError)
deriving DecidableEq, Repr

/-- Where a run of `WatchPodEvents` stands after a bounded number of steps. -/
inductive WatchOutcome where
  /-- The call returned this error. -/
  | returned (err : WatchError)
  /-- The call has not returned. -/
  | running
deriving DecidableEq, Repr

/-- A run of `WatchPodEvents` after a bounded number of steps: the outcome,
where the run stands (`streaming = false` at the entry of the method, `true` at
the head of the `for` loop), the registry, the log lines written, the world. -/
structure WatchRun (σ : Type) where
  outcome : WatchOutcome
  streaming : Bool
  watcher : PodEventWatcher
  log : List LogEntry
  world : σ

/-- The run with log lines put in front of its log. -/
def WatchRun.after {σ : Type} (lines : List LogEntry) (r : WatchRun σ) : WatchRun σ :=
  { r with log := lines ++ r.log }

/-- The method `WatchPodEvents` (watcher.go, lines 53-96) run for at most
`fuel` steps, a step being one call of `Watch` or one pass of the `select`
statement.  With `streaming = false` the run is at the entry of the method (the
recursive call on a closed channel re-enters there); with `streaming = true` it
is at the head of the `for` loop. -/
def watchFrom {σ : Type} (L : Library) (W : World σ) :
    Nat → Bool → PodEventWatcher → σ → WatchRun σ
  | 0, streaming, w, s =>
    { outcome := .running, streaming := streaming, watcher := w, log := [], world := s }
  | fuel + 1, false, w, s =>
    match W.Watch s with
    | (some cause, s') =>
      { outcome := .returned (.createFailed cause), streaming := false, watcher := w,
        log := [], world := s' }
    | (none, s') => (watchFrom L W fuel true w s').after [.started]
  | fuel + 1, true, w, s =>
    match W.Select s with
    | (.ctxDone err, s') =>
      { outcome := .returned (.ctx err), streaming := true, watcher := w, log := [],
        world := s' }
    | (.closed, s') => (watchFrom L W fuel false w s').after [.channelClosed]
    | (.result .other, s') => watchFrom L W fuel true w s'
    | (.result (.event k8sEvent), s') =>
      if isPodRestartEvent L k8sEvent then
        let h := handlePodRestartEvent L W (W.cluster s') w s' k8sEvent
        let failure :=
          match h.err with
          | some _ => [LogEntry.handleFailed k8sEvent.Name k8sEvent.InvolvedObject.Name]
          | none => []
        (watchFrom L W fuel true h.watcher h.world).after
          (.detected k8sEvent.InvolvedObject.Name k8sEvent.InvolvedObject.Namespace
              k8sEvent.Reason :: h.log ++ failure)
      else watchFrom L W fuel true w s'

/-- The method `WatchPodEvents` called on a registry, run for `fuel` steps. -/
def WatchPodEvents {σ : Type} (L : Library) (W : World σ) (fuel : Nat)
    (w : PodEventWatcher) (s : σ) : WatchRun σ :=
  watchFrom L W fuel false w s

/-! ## A concrete library, cluster and world to evaluate the definitions -/

/-- Lower-casing of the ASCII letters, the restriction of `strings.ToLower` to
ASCII text. -/
def asciiToLower (s : String) : String :=
  String.mk (s.data.map Char.toLower)

/-- The predicate of a selector on label sets, for evaluation. -/
def demoMatches (ls : LabelSelector) (labels : Labels) : Bool :=
  ls.MatchLabels.all (fun kv => labelValue labels kv.1 == some kv.2) &&
  ls.MatchExpressions.all (fun r =>
    match labelValue labels r.Key with
    | none => false
    | some v => r.Operator == "Exists" || r.Values.contains v)

/-- A selector conversion for evaluation: requirements are accepted with the
operators `In` and `Exists` and rejected otherwise; `MatchLabels` are equalities. -/
def demoSelector (ls : LabelSelector) : Option (Labels → Bool) :=
  if ls.MatchExpressions.all (fun r =>
      (r.Operator == "In" && !r.Values.isEmpty) || (r.Operator == "Exists" && r.Values.isEmpty))
  then some (demoMatches ls)
  else none

/-- A library instance for evaluation; the payload of a message is its text. -/
def demoLibrary : Library where
  ToLower := asciiToLower
  LabelSelectorAsSelector := demoSelector
  Marshal := fun m => .ok m.Text
  FormatDirective := fun _ _ => "?".data

/-- A scripted world: the responses of the webhook, the results of opening a
watch and the outcomes of `select` still to come, the clock, and the pods and
namespaces of the cluster. -/
structure Script where
  posts : List PostResult
  watches : List (Option String)
  signals : List Signal
  clock : Int
  pods : List Pod
  namespaces : List NamespaceObj
  posted : List (String × String)
  statusWrites : List SlackAlert
deriving DecidableEq, Repr

/-- The world that plays a script.  An exhausted script answers 200 to a POST,
opens every watch and closes every result channel. -/
def scriptWorld : World Script where
  Post := fun s _ url _ body =>
    (s.posts.headD (.response 200),
      { s with posts := s.posts.tail, posted := s.posted ++ [(url, body)] })
  now := fun s => s.clock
  statusUpdate := fun s a => { s with statusWrites := s.statusWrites ++ [a] }
  cluster := fun s =>
    { getPod := fun ns name => s.pods.find? (fun p => p.Namespace == ns && p.Name == name),
      getNamespace := fun name => s.namespaces.find? (fun n => n.Name == name) }
  Watch := fun s => (s.watches.headD none, { s with watches := s.watches.tail })
  Select := fun s => (s.signals.headD .closed, { s with signals := s.signals.tail })

/-- The pod `ns/worker-1` with one container `app` at 3 restarts. -/
def worker1 : Pod :=
  { Name := "worker-1", Namespace := "ns", Labels := [("tier", "backend")],
    Status := { ContainerStatuses := [{ Name := "app", RestartCount := 3 }] } }

/-- A `BackOff` event on the pod `ns/worker-1`. -/
def backOffEvent : Event :=
  { Name := "worker-1.17", Reason := "BackOff", Message := "Back-off restarting failed container",
    EventType := "Warning",
    InvolvedObject := { Kind := "Pod", Name := "worker-1", Namespace := "ns" } }

/-- The subscription `ns/app-alerts`: enabled, no selectors, no template. -/
def appAlerts : SlackAlert :=
  { Namespace := "ns", Name := "app-alerts",
    Spec := { WebhookURL := "https://hooks.example/T1", Channel := "", Username := "",
              NamespaceSelector := none, PodSelector := none, Enabled := true,
              MessageTemplate := "" },
    Status := { Conditions := [], LastEventTime := none, EventCount := 0 } }

/-- A script with the pod `ns/worker-1` and namespace `ns`, at clock 5 s. -/
def baseScript : Script :=
  { posts := [], watches := [], signals := [], clock := 5000000000,
    pods := [worker1], namespaces := [{ Name := "ns", Labels := [("env", "prod")] }],
    posted := [], statusWrites := [] }

/-- An event with reason `Scheduled` and a message without the three substrings. -/
def scheduledEvent : Event :=
  { Name := "worker-1.3", Reason := "Scheduled", Message := "Successfully assigned ns/worker-1",
    EventType := "Normal",
    InvolvedObject := { Kind := "Pod", Name := "worker-1", Namespace := "ns" } }

/-- A selector requiring the label `tier=backend`. -/
def tierBackend : LabelSelector :=
  { MatchLabels := [("tier", "backend")], MatchExpressions := [] }

/-! ## Predicates used in the statements -/

/-- The lockstep of the two maps: a key has a handle exactly when it has an
enabled record, and the handle is the client of that record's webhook URL. -/
def Lockstep (w : PodEventWatcher) : Prop :=
  ∀ key : String,
    (∀ client, w.slackClients.lookup key = some client →
      ∃ alert, w.alertConfigs.lookup key = some alert ∧ alert.Spec.Enabled = true ∧
        client = NewClient alert.Spec.WebhookURL) ∧
    (∀ alert, w.alertConfigs.lookup key = some alert → alert.Spec.Enabled = true →
      ∃ client, w.slackClients.lookup key = some client)

/-- Whether the loop body calls the notifier for an entry: the record is
enabled, matches the pod, and its key has a handle. -/
def qualifies (L : Library) (c : Cluster) (slackClients : AList (fun _ : String => Client))
    (pod : Pod) (e : Sigma (fun _ : String => SlackAlert)) : Bool :=
  e.2.Spec.Enabled && shouldSendAlert L c e.2 pod && (slackClients.lookup e.1).isSome

/-- A world whose watch always opens and whose result channel alternately
closes and delivers a `BackOff` event for a pod the cluster does not have; the
context is never done. -/
def churnWorld : World Nat where
  Post := fun n _ _ _ _ => (.transportError "unreachable", n)
  now := fun n => n
  statusUpdate := fun n _ => n
  cluster := fun _ => { getPod := fun _ _ => none, getNamespace := fun _ => none }
  Watch := fun n => (none, n + 1)
  Select := fun n =>
    (if n % 3 = 0 then .closed
      else if n % 3 = 1 then .result (.event backOffEvent)
      else .result .other, n + 1)

/-! ## The notifier calls of one event, stated from the claims -/

/-- A call of the notifier made while an event is handled: the key and record
it is made for, the handle it is made on, and the world it is made in. -/
structure NotifierCall (σ : Type) where
  key : String
  alert : SlackAlert
  client : Client
  before : σ
deriving DecidableEq

/-- What the call returns: the error of `SendPodRestartAlert` on the handle,
with the channel, username and template of the record, and the world it leaves. -/
def NotifierCall.result {σ : Type} (L : Library) (W : World σ) (pod : Pod) (event : Event)
    (call : NotifierCall σ) : Option SlackError × σ :=
  SendPodRestartAlert L W call.client call.before pod event call.alert.Spec.Channel
    call.alert.Spec.Username call.alert.Spec.MessageTemplate

/-- The world once the call is dealt with: after the status write when the call
succeeded, right after the call when it failed. -/
def NotifierCall.worldAfter {σ : Type} (L : Library) (W : World σ) (pod : Pod) (event : Event)
    (call : NotifierCall σ) : σ :=
  match (call.result L W pod event).1 with
  | none => (updateAlertStatus W (call.result L W pod event).2 call.alert).2
  | some _ => (call.result L W pod event).2

/-- The log line that reports the call. -/
def NotifierCall.logLine {σ : Type} (L : Library) (W : World σ) (pod : Pod) (event : Event)
    (call : NotifierCall σ) : LogEntry :=
  match (call.result L W pod event).1 with
  | none => .sent call.key pod.Name pod.Namespace
  | some err => .sendFailed err call.key pod.Name

/-- The notifier called once for each of the given records that has a handle,
in order, whatever the calls return: the calls made and the world left. -/
def notifierRun {σ : Type} (L : Library) (W : World σ)
    (slackClients : AList (fun _ : String => Client)) (pod : Pod) (event : Event) :
    List (Sigma (fun _ : String => SlackAlert)) → σ → List (NotifierCall σ) × σ
  | [], s => ([], s)
  | e :: rest, s =>
    match slackClients.lookup e.1 with
    | none => notifierRun L W slackClients pod event rest s
    | some client =>
      let call : NotifierCall σ := { key := e.1, alert := e.2, client := client, before := s }
      let t := notifierRun L W slackClients pod event rest (call.worldAfter L W pod event)
      (call :: t.1, t.2)

/-- The notifier calls for one event: one call for each record of the registry
that is enabled, has a handle and satisfies `shouldSendAlert`, in iteration
order, and none for any other record; with the world they leave. -/
def eventCalls {σ : Type} (L : Library) (W : World σ) (c : Cluster) (w : PodEventWatcher)
    (s : σ) (pod : Pod) (event : Event) : List (NotifierCall σ) × σ :=
  notifierRun L W w.slackClients pod event
    (w.alertConfigs.entries.filter (qualifies L c w.slackClients pod)) s

/-! ## Theorems -/

/-! ### Event classifier -/

theorem containsChars_iff_infix (s sub : List Char) :
    containsChars s sub = true ↔ sub <:+: s := by
  induction s with
  | nil => simp [containsChars, List.infix_nil]
  | cons c s ih =>
    simp only [containsChars, Bool.or_eq_true, ih, List.infix_cons_iff]
    rw [ List.isPrefixOf_iff_prefix]

theorem Contains_iff_infix (s substr : String) :
    Contains s substr = true ↔ substr.data <:+: s.data :=
  containsChars_iff_infix s.data substr.data

/-- C1: `isPodRestartEvent` is true exactly when the reason is one of Killing,
BackOff, FailedMount, Failed, Unhealthy, or the lower-cased message contains
`restart`, `restarting` or `killed` as a contiguous substring.  So it is true
for every allow-listed reason whatever the message, and false for the reason
`Scheduled` when the lower-cased message contains none of the three. -/
theorem isPodRestartEvent_iff (L : Library) (event : Event) :
    (isPodRestartEvent L event = true ↔
      (event.Reason ∈ ["Killing", "BackOff", "FailedMount", "Failed", "Unhealthy"] ∨
        "restart".data <:+: (L.ToLower event.Message).data ∨
        "restarting".data <:+: (L.ToLower event.Message).data ∨
        "killed".data <:+: (L.ToLower event.Message).data)) ∧
    (event.Reason ∈ ["Killing", "BackOff", "FailedMount", "Failed", "Unhealthy"] →
      isPodRestartEvent L event = true) ∧
    (event.Reason = "Scheduled" →
      ¬ "restart".data <:+: (L.ToLower event.Message).data →
      ¬ "restarting".data <:+: (L.ToLower event.Message).data →
      ¬ "killed".data <:+: (L.ToLower event.Message).data →
      isPodRestartEvent L event = false) := by
  have key : isPodRestartEvent L event = true ↔
      (event.Reason ∈ ["Killing", "BackOff", "FailedMount", "Failed", "Unhealthy"] ∨
        "restart".data <:+: (L.ToLower event.Message).data ∨
        "restarting".data <:+: (L.ToLower event.Message).data ∨
        "killed".data <:+: (L.ToLower event.Message).data) := by
    unfold isPodRestartEvent restartReasons
    by_cases h : event.Reason ∈ ["Killing", "BackOff", "FailedMount", "Failed", "Unhealthy"]
    · have hany : (["Killing", "BackOff", "FailedMount", "Failed", "Unhealthy"].any
          (fun reason => event.Reason == reason)) = true := by
        rw [List.any_eq_true]
        exact ⟨event.Reason, h, by simp⟩
      simp [hany, h]
    · have hany : (["Killing", "BackOff", "FailedMount", "Failed", "Unhealthy"].any
          (fun reason => event.Reason == reason)) = false := by
        rw [Bool.eq_false_iff]
        intro hc
        rw [List.any_eq_true] at hc
        obtain ⟨x, hx, hxe⟩ := hc
        have : event.Reason = x := by simpa using hxe
        exact h (this ▸ hx)
      rw [hany]
      simp only [Bool.false_eq_true, if_false, Bool.or_eq_true, Contains_iff_infix]
      constructor
      · rintro ((h1 | h2) | h3)
        · exact Or.inr (Or.inl h1)
        · exact Or.inr (Or.inr (Or.inl h2))
        · exact Or.inr (Or.inr (Or.inr h3))
      · rintro (h0 | h1 | h2 | h3)
        · exact absurd h0 h
        · exact Or.inl (Or.inl h1)
        · exact Or.inl (Or.inr h2)
        · exact Or.inr h3
  refine ⟨key, fun h => key.2 (Or.inl h), ?_⟩
  intro hr h1 h2 h3
  rw [Bool.eq_false_iff]
  intro hc
  rcases key.1 hc with h0 | h | h | h
  · rw [hr] at h0
    revert h0
    decide
  · exact h1 h
  · exact h2 h
  · exact h3 h

/-- Witness of C1: a `BackOff` event qualifies, and a `Scheduled` event whose
message has none of the substrings does not. -/
theorem isPodRestartEvent_iff_witness :
    isPodRestartEvent demoLibrary backOffEvent = true ∧
    isPodRestartEvent demoLibrary scheduledEvent = false :=
  ⟨(isPodRestartEvent_iff demoLibrary backOffEvent).2.1 (by decide),
    (isPodRestartEvent_iff demoLibrary scheduledEvent).2.2 rfl (by decide) (by decide)
      (by decide)⟩

/-! ### Selector matcher -/

/-- C2: `shouldSendAlert` is true exactly when the namespace check passes (the
selector is unset, or it converts, the namespace lookup succeeds and the labels
of the namespace satisfy it) and the pod check passes (the selector is unset,
or it converts and the labels of the pod satisfy it).  With both selectors
unset every pod matches; a conversion failure, a lookup failure or a non-match
on a present selector gives false. -/
theorem shouldSendAlert_iff (L : Library) (c : Cluster) (alert : SlackAlert) (pod : Pod) :
    (shouldSendAlert L c alert pod = true ↔
      (alert.Spec.NamespaceSelector = none ∨
        ∃ ls selector ns, alert.Spec.NamespaceSelector = some ls ∧
          L.LabelSelectorAsSelector ls = some selector ∧
          c.getNamespace pod.Namespace = some ns ∧ selector ns.Labels = true) ∧
      (alert.Spec.PodSelector = none ∨
        ∃ ls selector, alert.Spec.PodSelector = some ls ∧
          L.LabelSelectorAsSelector ls = some selector ∧ selector pod.Labels = true)) ∧
    (alert.Spec.NamespaceSelector = none → alert.Spec.PodSelector = none →
      shouldSendAlert L c alert pod = true) ∧
    (∀ ls, alert.Spec.NamespaceSelector = some ls →
      (L.LabelSelectorAsSelector ls = none ∨ c.getNamespace pod.Namespace = none ∨
        ∃ selector ns, L.LabelSelectorAsSelector ls = some selector ∧
          c.getNamespace pod.Namespace = some ns ∧ selector ns.Labels = false) →
      shouldSendAlert L c alert pod = false) ∧
    (∀ ls, alert.Spec.PodSelector = some ls →
      (L.LabelSelectorAsSelector ls = none ∨
        ∃ selector, L.LabelSelectorAsSelector ls = some selector ∧
          selector pod.Labels = false) →
      shouldSendAlert L c alert pod = false) := by
  refine ⟨?_, ?_, ?_, ?_⟩
  · unfold shouldSendAlert
    cases hn : alert.Spec.NamespaceSelector with
    | none =>
      cases hp : alert.Spec.PodSelector with
      | none => simp
      | some lp =>
        cases hlp : L.LabelSelectorAsSelector lp with
        | none => simp [hlp]
        | some sp => simp [hlp]
    | some ln =>
      cases hln : L.LabelSelectorAsSelector ln with
      | none => simp [hln]
      | some sn =>
        cases hg : c.getNamespace pod.Namespace with
        | none => simp [hln, hg]
        | some ns =>
          cases hm : sn ns.Labels with
          | false => simp [hln, hg, hm]
          | true =>
            cases hp : alert.Spec.PodSelector with
            | none => simp [hln, hg, hm]
            | some lp =>
              cases hlp : L.LabelSelectorAsSelector lp with
              | none => simp [hln, hg, hm, hlp]
              | some sp => simp [hln, hg, hm, hlp]
  · intro hn hp
    simp [shouldSendAlert, hn, hp]
  · intro ls hn hfail
    unfold shouldSendAlert
    rcases hfail with h | h | ⟨selector, ns, h1, h2, h3⟩
    · simp [hn, h]
    · cases hl : L.LabelSelectorAsSelector ls <;> simp [hn, hl, h]
    · simp [hn, h1, h2, h3]
  · intro ls hp hfail
    unfold shouldSendAlert
    rcases hfail with h | ⟨selector, h1, h2⟩
    · simp [hp, h]
    · simp [hp, h1, h2]

/-- Witness of C2: a record without selectors matches the pod `ns/worker-1`;
the selector `tier=backend` matches it as pod selector, and as namespace
selector fails on the namespace `ns`, which lacks the label. -/
theorem shouldSendAlert_iff_witness :
    shouldSendAlert demoLibrary (scriptWorld.cluster baseScript) appAlerts worker1 = true ∧
    shouldSendAlert demoLibrary (scriptWorld.cluster baseScript)
      { appAlerts with Spec := { appAlerts.Spec with NamespaceSelector := some tierBackend } }
      worker1 = false :=
  ⟨(shouldSendAlert_iff demoLibrary (scriptWorld.cluster baseScript) appAlerts worker1).2.1
      rfl rfl,
    (shouldSendAlert_iff demoLibrary (scriptWorld.cluster baseScript)
      { appAlerts with Spec := { appAlerts.Spec with NamespaceSelector := some tierBackend } }
      worker1).2.2.1 tierBackend rfl
      (Or.inr (Or.inr ⟨demoMatches tierBackend, { Name := "ns", Labels := [("env", "prod")] },
        rfl, by decide, by decide⟩))⟩

/-! ### Alert registry -/

theorem lockstep_new : Lockstep NewPodEventWatcher := by
  intro key
  simp [NewPodEventWatcher, AList.lookup_empty]

theorem lockstep_update (w : PodEventWatcher) (alert : SlackAlert) (h : Lockstep w) :
    Lockstep (UpdateAlertConfig w alert) := by
  intro key
  unfold UpdateAlertConfig
  by_cases hk : key = alertKey alert.Namespace alert.Name
  · subst hk
    cases he : alert.Spec.Enabled with
    | true => simp [he, AList.lookup_insert]
    | false => simp [he, AList.lookup_insert, AList.lookup_erase]
  · cases he : alert.Spec.Enabled with
    | true =>
      simp only [if_true, AList.lookup_insert_ne hk]
      exact h key
    | false =>
      simp only [Bool.false_eq_true, if_false, AList.lookup_insert_ne hk,
        AList.lookup_erase_ne hk]
      exact h key

theorem lockstep_remove (w : PodEventWatcher) (ns name : String) (h : Lockstep w) :
    Lockstep (RemoveAlertConfig w ns name) := by
  intro key
  unfold RemoveAlertConfig
  by_cases hk : key = alertKey ns name
  · subst hk
    simp [AList.lookup_erase]
  · simp only [AList.lookup_erase_ne hk]
    exact h key

theorem lockstep_applyOps (ops : List RegistryOp) (w : PodEventWatcher) (h : Lockstep w) :
    Lockstep (applyOps w ops) := by
  induction ops generalizing w with
  | nil => exact h
  | cons op ops ih =>
    apply ih
    cases op with
    | update alert => exact lockstep_update w alert h
    | remove ns name => exact lockstep_remove w ns name h

/-- C3: in every registry reached from `NewPodEventWatcher` by a sequence of
`UpdateAlertConfig` and `RemoveAlertConfig` calls, a key with a handle in
`slackClients` has a record in `alertConfigs` and that record is enabled, and
every enabled record held has a handle. -/
theorem registry_handle_iff_enabled (ops : List RegistryOp) (key : String) :
    (∀ client, (applyOps NewPodEventWatcher ops).slackClients.lookup key = some client →
      ∃ alert, (applyOps NewPodEventWatcher ops).alertConfigs.lookup key = some alert ∧
        alert.Spec.Enabled = true) ∧
    (∀ alert, (applyOps NewPodEventWatcher ops).alertConfigs.lookup key = some alert →
      alert.Spec.Enabled = true →
      ∃ client, (applyOps NewPodEventWatcher ops).slackClients.lookup key = some client) := by
  have h := lockstep_applyOps ops NewPodEventWatcher lockstep_new key
  refine ⟨fun client hc => ?_, h.2⟩
  obtain ⟨alert, ha, he, _⟩ := h.1 client hc
  exact ⟨alert, ha, he⟩

/-- Witness of C3: after the enabled record `ns/app-alerts` is upserted and
another key removed, the key `ns/app-alerts` has a handle. -/
theorem registry_handle_iff_enabled_witness :
    ∃ client, (applyOps NewPodEventWatcher
      [.update appAlerts, .remove "ns" "other"]).slackClients.lookup "ns/app-alerts" =
        some client :=
  (registry_handle_iff_enabled [.update appAlerts, .remove "ns" "other"] "ns/app-alerts").2
    appAlerts (by decide) rfl

/-- C4: after `UpdateAlertConfig w r` the record stored at the key of `r` is
`r`; the handle at that key is `NewClient` of the webhook URL of `r` (endpoint
that URL, timeout 30 s) when `r` is enabled, whatever handle was there before,
and there is no handle at that key when `r` is disabled. -/
theorem UpdateAlertConfig_spec (w : PodEventWatcher) (r : SlackAlert) :
    (UpdateAlertConfig w r).alertConfigs.lookup (alertKey r.Namespace r.Name) = some r ∧
    (r.Spec.Enabled = true →
      (UpdateAlertConfig w r).slackClients.lookup (alertKey r.Namespace r.Name) =
        some (NewClient r.Spec.WebhookURL) ∧
      (NewClient r.Spec.WebhookURL).webhookURL = r.Spec.WebhookURL ∧
      (NewClient r.Spec.WebhookURL).httpClient.Timeout = 30 * 1000000000) ∧
    (r.Spec.Enabled = false →
      (UpdateAlertConfig w r).slackClients.lookup (alertKey r.Namespace r.Name) = none) := by
  unfold UpdateAlertConfig
  cases he : r.Spec.Enabled with
  | true => simp [AList.lookup_insert, NewClient]
  | false => simp [AList.lookup_insert, AList.lookup_erase]

/-- Witness of C4: upserting `ns/app-alerts` with a new URL over a registry that
holds it with the old URL leaves a handle for the new URL. -/
theorem UpdateAlertConfig_spec_witness :
    (UpdateAlertConfig (UpdateAlertConfig NewPodEventWatcher appAlerts)
      { appAlerts with Spec := { appAlerts.Spec with WebhookURL := "https://hooks.example/T2" } }
      ).slackClients.lookup "ns/app-alerts" = some (NewClient "https://hooks.example/T2") :=
  ((UpdateAlertConfig_spec (UpdateAlertConfig NewPodEventWatcher appAlerts)
    { appAlerts with Spec := { appAlerts.Spec with WebhookURL := "https://hooks.example/T2" } }
    ).2.1 rfl).1

/-! ### Notifier -/

/-- C7: the default message has exactly one attachment; its fields are
Namespace, Pod Name, Reason (short) and Message (not short) with the values of
the pod and the event, then one short field `Container: <name>` with value
`Restart Count: <count>` per container status in list order, 4 + n fields in
all.  It is the message `SendPodRestartAlert` sends for an empty template.  For
pod `ns/worker-1` with container `app` at 3 restarts and reason `BackOff` the
fields are as listed. -/
theorem createDefaultMessage_fields (L : Library) (unixNow : Int) (pod : Pod) (event : Event)
    (channel username : String) :
    (∃ attachment, (createDefaultMessage unixNow pod event).Attachments = [attachment] ∧
      attachment.Fields =
        [ { Title := "Namespace", Value := pod.Namespace, Short := true },
          { Title := "Pod Name", Value := pod.Name, Short := true },
          { Title := "Reason", Value := event.Reason, Short := true },
          { Title := "Message", Value := event.Message, Short := false } ] ++
        pod.Status.ContainerStatuses.map (fun cs =>
          { Title := "Container: " ++ cs.Name,
            Value := "Restart Count: " ++ toString cs.RestartCount,
            Short := true }) ∧
      attachment.Fields.length = 4 + pod.Status.ContainerStatuses.length) ∧
    (alertMessage L unixNow pod event channel username "").Attachments =
      (createDefaultMessage unixNow pod event).Attachments ∧
    (createDefaultMessage unixNow worker1 backOffEvent).Attachments.map (fun a => a.Fields) =
      [[ { Title := "Namespace", Value := "ns", Short := true },
         { Title := "Pod Name", Value := "worker-1", Short := true },
         { Title := "Reason", Value := "BackOff", Short := true },
         { Title := "Message", Value := "Back-off restarting failed container", Short := false },
         { Title := "Container: app", Value := "Restart Count: 3", Short := true } ]] := by
  refine ⟨⟨_, rfl, rfl, ?_⟩, ?_, ?_⟩
  · simp [containerFields]
    omega
  · unfold alertMessage
    simp only [ne_eq, not_true_eq_false, if_false]
    split <;> split <;> rfl
  · simp only [createDefaultMessage, containerFields, worker1, backOffEvent, List.map]
    decide

/-- Counterexample to C8 as stated: a response with status 204, a 2xx code, is
reported as an error by `sendMessage`. -/
theorem sendMessage_204_is_error :
    demoLibrary.Marshal (createDefaultMessage 5 worker1 backOffEvent) = .ok "" ∧
    (scriptWorld.Post { baseScript with posts := [.response 204] }
      (NewClient "https://hooks.example/T1").httpClient "https://hooks.example/T1"
      "application/json" "").1 = .response 204 ∧
    (200 ≤ (204 : Int) ∧ (204 : Int) < 300) ∧
    (sendMessage demoLibrary scriptWorld (NewClient "https://hooks.example/T1")
      { baseScript with posts := [.response 204] }
      (createDefaultMessage 5 worker1 backOffEvent)).1 = some (.non200Status 204) :=
  ⟨rfl, by decide, by decide, by decide⟩

/-- C8, amended: when serialization and the HTTP transport both succeed,
`sendMessage` returns an error exactly when the status code is not 200, and
that error carries the status code; `SendPodRestartAlert` then returns the same
error wrapped with the pod, and `nil` exactly for status 200.  A 500 response
is the non-200 error carrying 500. -/
theorem sendMessage_error_iff_not_200 {σ : Type} (L : Library) (W : World σ) (c : Client)
    (s s' : σ) (message : SlackMessage) (payload : String) (code : Int)
    (hm : L.Marshal message = .ok payload)
    (hp : W.Post s c.httpClient c.webhookURL "application/json" payload = (.response code, s')) :
    ((sendMessage L W c s message).1 = none ↔ code = 200) ∧
    (code ≠ 200 → sendMessage L W c s message = (some (.non200Status code), s')) ∧
    (code = 500 → sendMessage L W c s message = (some (.non200Status 500), s')) ∧
    (∀ pod event channel username template,
      message = alertMessage L (W.now s / 1000000000) pod event channel username template →
      ((SendPodRestartAlert L W c s pod event channel username template).1 = none ↔
        code = 200) ∧
      (code ≠ 200 → SendPodRestartAlert L W c s pod event channel username template =
        (some (.alertFailed pod.Namespace pod.Name (.non200Status code)), s'))) := by
  have hs : sendMessage L W c s message =
      if code ≠ 200 then (some (.non200Status code), s') else (none, s') := by
    simp only [sendMessage, hm, hp]
  refine ⟨?_, ?_, ?_, ?_⟩
  · rw [hs]
    by_cases h : code = 200 <;> simp [h]
  · intro h
    rw [hs, if_pos h]
  · intro h
    subst h
    rw [hs]
    simp
  · intro pod event channel username template hmsg
    unfold SendPodRestartAlert
    rw [← hmsg, hs]
    by_cases h : code = 200 <;> simp [h]

/-- Witness of C8: on a scripted 500 response `sendMessage` returns the non-200
error carrying 500. -/
theorem sendMessage_error_iff_not_200_witness :
    sendMessage demoLibrary scriptWorld (NewClient "https://hooks.example/T1")
      { baseScript with posts := [.response 500] }
      (createDefaultMessage 5 worker1 backOffEvent) =
    (some (.non200Status 500),
      { baseScript with posts := [], posted := [("https://hooks.example/T1", "")] }) :=
  (sendMessage_error_iff_not_200 demoLibrary scriptWorld (NewClient "https://hooks.example/T1")
    { baseScript with posts := [.response 500] }
    { baseScript with posts := [], posted := [("https://hooks.example/T1", "")] }
    (createDefaultMessage 5 worker1 backOffEvent) "" 500 rfl rfl).2.1 (by decide)

theorem sprintfChars_literal (other : List Char → List String → List Char)
    (seg rest : List Char) (args : List String) (h : '%' ∉ seg) :
    sprintfChars other (seg ++ rest) args = seg ++ sprintfChars other rest args := by
  induction seg with
  | nil => rfl
  | cons c seg ih =>
    have hc : c ≠ '%' := fun e => h (e ▸ List.mem_cons_self c seg)
    have hseg : '%' ∉ seg := fun m => h (List.mem_cons_of_mem c m)
    rw [List.cons_append, sprintfChars.eq_def]
    simp only [if_neg hc, ih hseg, List.cons_append]

theorem sprintfChars_verb_s (other : List Char → List String → List Char)
    (rest : List Char) (a : String) (args : List String) :
    sprintfChars other ('%' :: 's' :: rest) (a :: args) =
      a.data ++ sprintfChars other rest args := by
  simp [sprintfChars]

theorem sprintfChars_four (other : List Char → List String → List Char)
    (t0 t1 t2 t3 t4 : List Char) (a b c d : String)
    (h0 : '%' ∉ t0) (h1 : '%' ∉ t1) (h2 : '%' ∉ t2) (h3 : '%' ∉ t3) (h4 : '%' ∉ t4) :
    sprintfChars other
      (t0 ++ ('%' :: 's' :: (t1 ++ ('%' :: 's' :: (t2 ++ ('%' :: 's' :: (t3 ++
        ('%' :: 's' :: (t4 ++ [])))))))))
      [a, b, c, d] =
    t0 ++ (a.data ++ (t1 ++ (b.data ++ (t2 ++ (c.data ++ (t3 ++ (d.data ++ t4))))))) := by
  rw [sprintfChars_literal other t0 _ _ h0, sprintfChars_verb_s,
    sprintfChars_literal other t1 _ _ h1, sprintfChars_verb_s,
    sprintfChars_literal other t2 _ _ h2, sprintfChars_verb_s,
    sprintfChars_literal other t3 _ _ h3, sprintfChars_verb_s,
    sprintfChars_literal other t4 _ _ h4]
  simp [sprintfChars, extraOperands]

/-- Counterexample to C9 as stated: the non-empty template `hello` has no
placeholder, and `SendPodRestartAlert` returns no error and posts the text that
`fmt.Sprintf` makes of it. -/
theorem SendPodRestartAlert_no_placeholder_is_sent :
    (SendPodRestartAlert demoLibrary scriptWorld (NewClient "https://hooks.example/T1")
      baseScript worker1 backOffEvent "" "" "hello").1 = none ∧
    (SendPodRestartAlert demoLibrary scriptWorld (NewClient "https://hooks.example/T1")
      baseScript worker1 backOffEvent "" "" "hello").2.posted =
      [("https://hooks.example/T1",
        "hello%!(EXTRA string=worker-1, string=ns, string=BackOff, " ++
          "string=Back-off restarting failed container)")] := by
  constructor <;> decide

/-- C9, amended: `SendPodRestartAlert` does not validate a template.  For every
non-empty template the message sent has as text the result of `fmt.Sprintf` on
the template and pod name, pod namespace, event reason, event message, and no
attachment; it is delivered (no error) whenever serialization succeeds and the
webhook answers 200.  For a template made of five texts without a percent sign
separated by four `%s`, the text is the template with pod name, pod namespace,
event reason and event message substituted in that order. -/
theorem SendPodRestartAlert_template {σ : Type} (L : Library) (W : World σ) (c : Client)
    (s : σ) (pod : Pod) (event : Event) (channel username template : String)
    (ht : template ≠ "") :
    (alertMessage L (W.now s / 1000000000) pod event channel username template).Text =
      Sprintf L template [pod.Name, pod.Namespace, event.Reason, event.Message] ∧
    (alertMessage L (W.now s / 1000000000) pod event channel username template).Attachments =
      [] ∧
    (∀ payload s',
      L.Marshal (alertMessage L (W.now s / 1000000000) pod event channel username template) =
        .ok payload →
      W.Post s c.httpClient c.webhookURL "application/json" payload = (.response 200, s') →
      SendPodRestartAlert L W c s pod event channel username template = (none, s')) ∧
    (∀ t0 t1 t2 t3 t4 : String,
      '%' ∉ t0.data → '%' ∉ t1.data → '%' ∉ t2.data → '%' ∉ t3.data → '%' ∉ t4.data →
      template = t0 ++ "%s" ++ t1 ++ "%s" ++ t2 ++ "%s" ++ t3 ++ "%s" ++ t4 →
      (alertMessage L (W.now s / 1000000000) pod event channel username template).Text =
        t0 ++ pod.Name ++ t1 ++ pod.Namespace ++ t2 ++ event.Reason ++ t3 ++
          event.Message ++ t4) := by
  have htext : (alertMessage L (W.now s / 1000000000) pod event channel username
      template).Text = Sprintf L template [pod.Name, pod.Namespace, event.Reason,
        event.Message] := by
    unfold alertMessage
    simp only [ne_eq, ht, not_false_eq_true, if_true]
    split <;> split <;> rfl
  refine ⟨htext, ?_, ?_, ?_⟩
  · unfold alertMessage
    simp only [ne_eq, ht, not_false_eq_true, if_true]
    split <;> split <;> rfl
  · intro payload s' hm hp
    simp [SendPodRestartAlert, sendMessage, hm, hp]
  · intro t0 t1 t2 t3 t4 h0 h1 h2 h3 h4 hform
    rw [htext, hform]
    apply String.ext
    have h := sprintfChars_four L.FormatDirective t0.data t1.data t2.data t3.data t4.data
      pod.Name pod.Namespace event.Reason event.Message h0 h1 h2 h3 h4
    simp only [List.append_nil] at h
    have hs : ("%s" : String).data = ['%', 's'] := rfl
    simp only [Sprintf, String.data_append, hs, List.append_assoc, List.cons_append,
      List.nil_append]
    exact h

/-- Witness of C9: the template `pod %s in %s: %s (%s)` becomes the text with
the four values of the pod `ns/worker-1` and the `BackOff` event. -/
theorem SendPodRestartAlert_template_witness :
    (alertMessage demoLibrary (scriptWorld.now baseScript / 1000000000) worker1 backOffEvent
      "" "" "pod %s in %s: %s (%s)").Text =
    "pod " ++ "worker-1" ++ " in " ++ "ns" ++ ": " ++ "BackOff" ++ " (" ++
      "Back-off restarting failed container" ++ ")" :=
  (SendPodRestartAlert_template demoLibrary scriptWorld (NewClient "https://hooks.example/T1")
    baseScript worker1 backOffEvent "" "" "pod %s in %s: %s (%s)" (by decide)).2.2.2
    "pod " " in " ": " " (" ")" (by decide) (by decide) (by decide) (by decide) (by decide)
    (by decide)

/-! ### Event handling -/

theorem dlookup_kreplace_ne {β : Type} {k k' : String} (h : k ≠ k') (b : β)
    (l : List (Sigma (fun _ : String => β))) :
    List.dlookup k (List.kreplace k' b l) = List.dlookup k l := by
  induction l with
  | nil => rfl
  | cons e l ih =>
    obtain ⟨a, v⟩ := e
    unfold List.kreplace at ih ⊢
    by_cases hka : k' = a
    · have hf : (fun s : Sigma (fun _ : String => β) =>
          if k' = s.fst then some (⟨k', b⟩ : Sigma (fun _ : String => β)) else none) ⟨a, v⟩ =
            some ⟨k', b⟩ := by
        simp [hka]
      rw [List.lookmap_cons_some _ _ hf]
      subst hka
      rw [List.dlookup_cons_ne _ _ h, List.dlookup_cons_ne _ _ h]
    · rw [List.lookmap_cons_none _ _ (by simp [hka])]
      by_cases hk : k = a
      · subst hk
        rw [List.dlookup_cons_eq, List.dlookup_cons_eq]
      · rw [List.dlookup_cons_ne _ _ hk, List.dlookup_cons_ne _ _ hk, ih]

theorem dlookup_kreplace_self {β : Type} {k : String} (b : β)
    (l : List (Sigma (fun _ : String => β))) (h : k ∈ l.keys) :
    List.dlookup k (List.kreplace k b l) = some b := by
  induction l with
  | nil => simp at h
  | cons e l ih =>
    obtain ⟨a, v⟩ := e
    unfold List.kreplace at ih ⊢
    by_cases hka : k = a
    · have hf : (fun s : Sigma (fun _ : String => β) =>
          if k = s.fst then some (⟨k, b⟩ : Sigma (fun _ : String => β)) else none) ⟨a, v⟩ =
            some ⟨k, b⟩ := by
        simp [hka]
      rw [List.lookmap_cons_some _ _ hf]
      rw [List.dlookup_cons_eq]
    · rw [List.lookmap_cons_none _ _ (by simp [hka])]
      rw [List.dlookup_cons_ne _ _ hka]
      apply ih
      simpa [List.keys, hka] using h

theorem lookup_replace_ne {k k' : String} (h : k ≠ k') (b : SlackAlert)
    (m : AList (fun _ : String => SlackAlert)) :
    (m.replace k' b).lookup k = m.lookup k :=
  dlookup_kreplace_ne h b m.entries

theorem lookup_replace_self {k : String} (b : SlackAlert)
    (m : AList (fun _ : String => SlackAlert)) (h : k ∈ m) :
    (m.replace k b).lookup k = some b :=
  dlookup_kreplace_self b m.entries h

theorem count_qualifying_keys (L : Library) (c : Cluster)
    (slackClients : AList (fun _ : String => Client)) (pod : Pod)
    (m : AList (fun _ : String => SlackAlert)) (key : String) :
    ((∃ alert client, m.lookup key = some alert ∧ alert.Spec.Enabled = true ∧
        slackClients.lookup key = some client ∧ shouldSendAlert L c alert pod = true) →
      ((m.entries.filter (qualifies L c slackClients pod)).map Sigma.fst).count key = 1) ∧
    ((¬ ∃ alert client, m.lookup key = some alert ∧ alert.Spec.Enabled = true ∧
        slackClients.lookup key = some client ∧ shouldSendAlert L c alert pod = true) →
      ((m.entries.filter (qualifies L c slackClients pod)).map Sigma.fst).count key = 0) := by
  have hnd : ((m.entries.filter (qualifies L c slackClients pod)).map Sigma.fst).Nodup := by
    have hsub : ((m.entries.filter (qualifies L c slackClients pod)).map Sigma.fst).Sublist
        m.keys := List.Sublist.map _ (List.filter_sublist _)
    exact hsub.nodup m.keys_nodup
  constructor
  · rintro ⟨alert, client, ha, he, hc, hs⟩
    apply List.count_eq_one_of_mem hnd
    rw [List.mem_map]
    refine ⟨⟨key, alert⟩, ?_, rfl⟩
    rw [List.mem_filter]
    refine ⟨AList.mem_lookup_iff.1 (by simp [ha]), ?_⟩
    simp [qualifies, he, hs, hc]
  · intro hno
    apply List.count_eq_zero_of_not_mem
    intro hmem
    rw [List.mem_map] at hmem
    obtain ⟨⟨k, alert⟩, he, hk⟩ := hmem
    rw [List.mem_filter] at he
    obtain ⟨hin, hq⟩ := he
    simp only at hk
    subst hk
    apply hno
    simp only [qualifies, Bool.and_eq_true] at hq
    obtain ⟨⟨h1, h2⟩, h3⟩ := hq
    obtain ⟨client, hcl⟩ := Option.isSome_iff_exists.1 h3
    have hl : alert ∈ m.lookup k := AList.mem_lookup_iff.2 hin
    exact ⟨alert, client, by simpa using hl, h1, hcl, h2⟩

theorem handleAlert_other {σ : Type} (L : Library) (W : World σ) (c : Cluster)
    (slackClients : AList (fun _ : String => Client)) (pod : Pod) (event : Event)
    (k key : String) (alert : SlackAlert) (st : HandleState σ) (hk : k ≠ key) :
    (handleAlert L W c slackClients pod event key alert st).alertConfigs.lookup k =
      st.alertConfigs.lookup k ∧
    (∀ p n, LogEntry.sent k p n ∈ (handleAlert L W c slackClients pod event key alert st).log ↔
      LogEntry.sent k p n ∈ st.log) := by
  unfold handleAlert
  cases he : alert.Spec.Enabled with
  | false => simp
  | true =>
    cases hs : shouldSendAlert L c alert pod with
    | false => simp
    | true =>
      cases hl : slackClients.lookup key with
      | none => simp
      | some client =>
        rcases hsend : SendPodRestartAlert L W client st.world pod event alert.Spec.Channel
          alert.Spec.Username alert.Spec.MessageTemplate with ⟨err, s'⟩
        cases err with
        | none => simp [hsend, lookup_replace_ne hk, hk]
        | some e => simp [hsend]

theorem handleAlerts_other {σ : Type} (L : Library) (W : World σ) (c : Cluster)
    (slackClients : AList (fun _ : String => Client)) (pod : Pod) (event : Event)
    (k : String) (l : List (Sigma (fun _ : String => SlackAlert))) (st : HandleState σ)
    (hk : k ∉ l.keys) :
    (handleAlerts L W c slackClients pod event l st).alertConfigs.lookup k =
      st.alertConfigs.lookup k ∧
    (∀ p n, LogEntry.sent k p n ∈ (handleAlerts L W c slackClients pod event l st).log ↔
      LogEntry.sent k p n ∈ st.log) := by
  induction l generalizing st with
  | nil => simp [handleAlerts]
  | cons e l ih =>
    have hne : k ≠ e.1 := fun h => hk (by simp [List.keys, h])
    have hrest : k ∉ l.keys := fun h => hk (by
      simp only [List.keys, List.map_cons, List.mem_cons]
      exact Or.inr h)
    have h1 := handleAlert_other L W c slackClients pod event k e.1 e.2 st hne
    have h2 := ih (handleAlert L W c slackClients pod event e.1 e.2 st) hrest
    rw [handleAlerts]
    exact ⟨h2.1.trans h1.1, fun p n => (h2.2 p n).trans (h1.2 p n)⟩

theorem handleAlert_not_qualifying {σ : Type} (L : Library) (W : World σ) (c : Cluster)
    (slackClients : AList (fun _ : String => Client)) (pod : Pod) (event : Event)
    (key : String) (alert : SlackAlert) (st : HandleState σ)
    (hq : qualifies L c slackClients pod ⟨key, alert⟩ = false) :
    handleAlert L W c slackClients pod event key alert st = st := by
  unfold handleAlert
  unfold qualifies at hq
  cases he : alert.Spec.Enabled with
  | false => simp
  | true =>
    cases hs : shouldSendAlert L c alert pod with
    | false => simp
    | true =>
      cases hl : slackClients.lookup key with
      | none => simp
      | some client => simp [he, hs, hl] at hq

theorem handleAlert_qualifying {σ : Type} (L : Library) (W : World σ) (c : Cluster)
    (slackClients : AList (fun _ : String => Client)) (pod : Pod) (event : Event)
    (key : String) (alert : SlackAlert) (st : HandleState σ) (client : Client)
    (hq : qualifies L c slackClients pod ⟨key, alert⟩ = true)
    (hc : slackClients.lookup key = some client) :
    (handleAlert L W c slackClients pod event key alert st).world =
      NotifierCall.worldAfter L W pod event
        { key := key, alert := alert, client := client, before := st.world } ∧
    (handleAlert L W c slackClients pod event key alert st).log =
      st.log ++ [NotifierCall.logLine L W pod event
        { key := key, alert := alert, client := client, before := st.world }] ∧
    ((NotifierCall.result L W pod event
        { key := key, alert := alert, client := client, before := st.world }).1 = none →
      (handleAlert L W c slackClients pod event key alert st).alertConfigs =
        st.alertConfigs.replace key
          (updateAlertStatus W (NotifierCall.result L W pod event
            { key := key, alert := alert, client := client, before := st.world }).2 alert).1) ∧
    ((NotifierCall.result L W pod event
        { key := key, alert := alert, client := client, before := st.world }).1 ≠ none →
      (handleAlert L W c slackClients pod event key alert st).alertConfigs =
        st.alertConfigs) := by
  simp only [qualifies, Bool.and_eq_true] at hq
  obtain ⟨⟨he, hs⟩, _⟩ := hq
  unfold handleAlert NotifierCall.worldAfter NotifierCall.logLine NotifierCall.result
  simp only [he, hs, hc, Bool.not_true, Bool.false_eq_true, if_false, if_true]
  rcases hsend : SendPodRestartAlert L W client st.world pod event alert.Spec.Channel
    alert.Spec.Username alert.Spec.MessageTemplate with ⟨err, s'⟩
  cases err with
  | none => simp
  | some e => simp

theorem handleAlerts_refines {σ : Type} (L : Library) (W : World σ) (c : Cluster)
    (slackClients : AList (fun _ : String => Client)) (pod : Pod) (event : Event)
    (l : List (Sigma (fun _ : String => SlackAlert))) (st : HandleState σ) :
    (handleAlerts L W c slackClients pod event l st).world =
      (notifierRun L W slackClients pod event
        (l.filter (qualifies L c slackClients pod)) st.world).2 ∧
    (handleAlerts L W c slackClients pod event l st).log =
      st.log ++ (notifierRun L W slackClients pod event
        (l.filter (qualifies L c slackClients pod)) st.world).1.map
          (NotifierCall.logLine L W pod event) := by
  induction l generalizing st with
  | nil => simp [handleAlerts, notifierRun]
  | cons e l ih =>
    rw [handleAlerts]
    cases hq : qualifies L c slackClients pod e with
    | false =>
      have hstep := handleAlert_not_qualifying L W c slackClients pod event e.1 e.2 st hq
      rw [hstep, List.filter_cons_of_neg (by simp [hq])]
      exact ih st
    | true =>
      have hsome : (slackClients.lookup e.1).isSome = true := by
        simp only [qualifies, Bool.and_eq_true] at hq
        exact hq.2
      obtain ⟨client, hc⟩ := Option.isSome_iff_exists.1 hsome
      obtain ⟨hw, hlog, _, _⟩ :=
        handleAlert_qualifying L W c slackClients pod event e.1 e.2 st client hq hc
      have h := ih (handleAlert L W c slackClients pod event e.1 e.2 st)
      rw [List.filter_cons_of_pos hq]
      simp only [notifierRun, hc]
      rw [hw, hlog] at h
      refine ⟨h.1, ?_⟩
      rw [h.2]
      simp

theorem notifierRun_call_mem {σ : Type} (L : Library) (W : World σ)
    (slackClients : AList (fun _ : String => Client)) (pod : Pod) (event : Event)
    (l : List (Sigma (fun _ : String => SlackAlert))) (s : σ) (call : NotifierCall σ)
    (h : call ∈ (notifierRun L W slackClients pod event l s).1) :
    Sigma.mk call.key call.alert ∈ l ∧ slackClients.lookup call.key = some call.client := by
  induction l generalizing s with
  | nil => simp [notifierRun] at h
  | cons e l ih =>
    rw [notifierRun] at h
    cases hc : slackClients.lookup e.1 with
    | none =>
      rw [hc] at h
      obtain ⟨h1, h2⟩ := ih s h
      exact ⟨List.mem_cons_of_mem _ h1, h2⟩
    | some client =>
      rw [hc] at h
      simp only [List.mem_cons] at h
      rcases h with h | h
      · subst h
        exact ⟨List.mem_cons_self _ _, hc⟩
      · obtain ⟨h1, h2⟩ := ih _ h
        exact ⟨List.mem_cons_of_mem _ h1, h2⟩

theorem notifierRun_keys {σ : Type} (L : Library) (W : World σ)
    (slackClients : AList (fun _ : String => Client)) (pod : Pod) (event : Event)
    (l : List (Sigma (fun _ : String => SlackAlert))) (s : σ)
    (hall : ∀ e ∈ l, (slackClients.lookup e.1).isSome = true) :
    (notifierRun L W slackClients pod event l s).1.map (fun call => call.key) =
      l.map Sigma.fst := by
  induction l generalizing s with
  | nil => simp [notifierRun]
  | cons e l ih =>
    obtain ⟨client, hc⟩ := Option.isSome_iff_exists.1 (hall e (List.mem_cons_self _ _))
    simp only [notifierRun, hc, List.map_cons]
    rw [ih _ (fun e' he' => hall e' (List.mem_cons_of_mem _ he'))]

theorem notifierRun_qualifying_keys {σ : Type} (L : Library) (W : World σ) (c : Cluster)
    (slackClients : AList (fun _ : String => Client)) (pod : Pod) (event : Event)
    (l : List (Sigma (fun _ : String => SlackAlert))) (s : σ) :
    (notifierRun L W slackClients pod event
      (l.filter (qualifies L c slackClients pod)) s).1.map (fun call => call.key) =
      (l.filter (qualifies L c slackClients pod)).map Sigma.fst := by
  apply notifierRun_keys
  intro e he
  have hq := (List.mem_filter.1 he).2
  simp only [qualifies, Bool.and_eq_true] at hq
  exact hq.2

/-- C5: when the pod lookup succeeds, `handlePodRestartEvent` returns no error,
and what it does to the world and writes to the log is what calling
`SendPodRestartAlert` does, once for each record that is enabled, has a handle
and satisfies `shouldSendAlert`, in iteration order, and for no other record
(`eventCalls`), for every webhook behaviour: a failed call does not stop the
calls for the remaining records.  Every call is made on the handle and with the
record stored at its key; a key gets exactly one call when its record is
enabled, has a handle and matches, and none otherwise; a record upserted with
`Enabled = false` gets none. -/
theorem handlePodRestartEvent_notifies {σ : Type} (L : Library) (W : World σ) (c : Cluster)
    (w : PodEventWatcher) (s : σ) (event : Event) (pod : Pod)
    (hpod : c.getPod event.InvolvedObject.Namespace event.InvolvedObject.Name = some pod) :
    (handlePodRestartEvent L W c w s event).err = none ∧
    (handlePodRestartEvent L W c w s event).world = (eventCalls L W c w s pod event).2 ∧
    (handlePodRestartEvent L W c w s event).log =
      (eventCalls L W c w s pod event).1.map (NotifierCall.logLine L W pod event) ∧
    (∀ call ∈ (eventCalls L W c w s pod event).1,
      w.alertConfigs.lookup call.key = some call.alert ∧
      w.slackClients.lookup call.key = some call.client ∧
      call.alert.Spec.Enabled = true ∧ shouldSendAlert L c call.alert pod = true) ∧
    (∀ key,
      (∃ alert client, w.alertConfigs.lookup key = some alert ∧ alert.Spec.Enabled = true ∧
        w.slackClients.lookup key = some client ∧ shouldSendAlert L c alert pod = true) →
      ((eventCalls L W c w s pod event).1.map (fun call => call.key)).count key = 1) ∧
    (∀ key,
      (¬ ∃ alert client, w.alertConfigs.lookup key = some alert ∧ alert.Spec.Enabled = true ∧
        w.slackClients.lookup key = some client ∧ shouldSendAlert L c alert pod = true) →
      ((eventCalls L W c w s pod event).1.map (fun call => call.key)).count key = 0) ∧
    (∀ alert, alert.Spec.Enabled = false →
      (handlePodRestartEvent L W c (UpdateAlertConfig w alert) s event).world =
        (eventCalls L W c (UpdateAlertConfig w alert) s pod event).2 ∧
      (handlePodRestartEvent L W c (UpdateAlertConfig w alert) s event).log =
        (eventCalls L W c (UpdateAlertConfig w alert) s pod event).1.map
          (NotifierCall.logLine L W pod event) ∧
      ((eventCalls L W c (UpdateAlertConfig w alert) s pod event).1.map
        (fun call => call.key)).count (alertKey alert.Namespace alert.Name) = 0) := by
  have href : ∀ w' : PodEventWatcher,
      (handlePodRestartEvent L W c w' s event).world = (eventCalls L W c w' s pod event).2 ∧
      (handlePodRestartEvent L W c w' s event).log =
        (eventCalls L W c w' s pod event).1.map (NotifierCall.logLine L W pod event) := by
    intro w'
    have h := handleAlerts_refines L W c w'.slackClients pod event w'.alertConfigs.entries
      { alertConfigs := w'.alertConfigs, log := [], world := s }
    simp only [handlePodRestartEvent, hpod, eventCalls]
    exact ⟨h.1, by simpa using h.2⟩
  have hkeys : ∀ w' : PodEventWatcher,
      (eventCalls L W c w' s pod event).1.map (fun call => call.key) =
        (w'.alertConfigs.entries.filter (qualifies L c w'.slackClients pod)).map Sigma.fst :=
    fun w' => notifierRun_qualifying_keys L W c w'.slackClients pod event _ s
  refine ⟨by simp [handlePodRestartEvent, hpod], (href w).1, (href w).2, ?_, ?_, ?_, ?_⟩
  · intro call hcall
    obtain ⟨hin, hcl⟩ := notifierRun_call_mem L W w.slackClients pod event _ s call hcall
    obtain ⟨hent, hq⟩ := List.mem_filter.1 hin
    simp only [qualifies, Bool.and_eq_true] at hq
    have hl : call.alert ∈ w.alertConfigs.lookup call.key := AList.mem_lookup_iff.2 hent
    exact ⟨by simpa using hl, hcl, hq.1.1, hq.1.2⟩
  · intro key h
    rw [hkeys]
    exact (count_qualifying_keys L c w.slackClients pod w.alertConfigs key).1 h
  · intro key h
    rw [hkeys]
    exact (count_qualifying_keys L c w.slackClients pod w.alertConfigs key).2 h
  · intro alert hdis
    refine ⟨(href _).1, (href _).2, ?_⟩
    rw [hkeys]
    apply (count_qualifying_keys L c _ pod _ _).2
    rintro ⟨alert', client, ha, he, _, _⟩
    have hstored : (UpdateAlertConfig w alert).alertConfigs.lookup
        (alertKey alert.Namespace alert.Name) = some alert := by
      unfold UpdateAlertConfig
      cases alert.Spec.Enabled <;> simp [AList.lookup_insert]
    rw [hstored] at ha
    cases ha
    rw [hdis] at he
    cases he

/-- Witness of C5: with the enabled record `ns/app-alerts` in the registry and
a webhook answering 500, a `BackOff` event on `ns/worker-1` gives one notifier
call for that key, and the world after the event has the one POST to the
webhook of the record. -/
theorem handlePodRestartEvent_notifies_witness :
    ((eventCalls demoLibrary scriptWorld (scriptWorld.cluster baseScript)
      (UpdateAlertConfig NewPodEventWatcher appAlerts)
      { baseScript with posts := [.response 500] } worker1 backOffEvent).1.map
        (fun call => call.key)).count "ns/app-alerts" = 1 ∧
    (handlePodRestartEvent demoLibrary scriptWorld (scriptWorld.cluster baseScript)
      (UpdateAlertConfig NewPodEventWatcher appAlerts)
      { baseScript with posts := [.response 500] } backOffEvent).world.posted =
      [("https://hooks.example/T1", "")] := by
  have h := handlePodRestartEvent_notifies demoLibrary scriptWorld
    (scriptWorld.cluster baseScript) (UpdateAlertConfig NewPodEventWatcher appAlerts)
    { baseScript with posts := [.response 500] } backOffEvent worker1 (by decide)
  refine ⟨h.2.2.2.2.1 "ns/app-alerts"
    ⟨appAlerts, NewClient "https://hooks.example/T1", by decide, by decide, by decide,
      by decide⟩, ?_⟩
  rw [h.2.1]
  decide

theorem notifierRun_key_mem {σ : Type} (L : Library) (W : World σ) (c : Cluster)
    (slackClients : AList (fun _ : String => Client)) (pod : Pod) (event : Event)
    (l : List (Sigma (fun _ : String => SlackAlert))) (s : σ) (call : NotifierCall σ)
    (h : call ∈ (notifierRun L W slackClients pod event
      (l.filter (qualifies L c slackClients pod)) s).1) : call.key ∈ l.keys := by
  have hin := (notifierRun_call_mem L W slackClients pod event _ s call h).1
  exact List.mem_keys_of_mem (List.mem_filter.1 hin).1

theorem handleAlerts_record {σ : Type} (L : Library) (W : World σ) (c : Cluster)
    (slackClients : AList (fun _ : String => Client)) (pod : Pod) (event : Event)
    (k : String) (a : SlackAlert) (l : List (Sigma (fun _ : String => SlackAlert)))
    (st : HandleState σ) (hnd : l.NodupKeys) (hin : Sigma.mk k a ∈ l)
    (hmem : st.alertConfigs.lookup k = some a) :
    (∀ call ∈ (notifierRun L W slackClients pod event
        (l.filter (qualifies L c slackClients pod)) st.world).1, call.key = k →
      ((call.result L W pod event).1 = none →
        (handleAlerts L W c slackClients pod event l st).alertConfigs.lookup k =
          some (updateAlertStatus W (call.result L W pod event).2 a).1) ∧
      ((call.result L W pod event).1 ≠ none →
        (handleAlerts L W c slackClients pod event l st).alertConfigs.lookup k = some a)) ∧
    ((∀ call ∈ (notifierRun L W slackClients pod event
        (l.filter (qualifies L c slackClients pod)) st.world).1, call.key ≠ k) →
      (handleAlerts L W c slackClients pod event l st).alertConfigs.lookup k = some a) := by
  induction l generalizing st with
  | nil => simp at hin
  | cons e l ih =>
    rw [List.nodupKeys_cons] at hnd
    obtain ⟨hfresh, hnd'⟩ := hnd
    rw [handleAlerts]
    cases hq : qualifies L c slackClients pod e with
    | false =>
      have hstep := handleAlert_not_qualifying L W c slackClients pod event e.1 e.2 st hq
      rw [hstep, List.filter_cons_of_neg (by simp [hq])]
      rcases List.mem_cons.1 hin with heq | htail
      · subst heq
        have hrest := handleAlerts_other L W c slackClients pod event k l st hfresh
        constructor
        · intro call hcall hk
          exact absurd (hk ▸ notifierRun_key_mem L W c slackClients pod event l _ call hcall)
            hfresh
        · intro _
          exact hrest.1.trans hmem
      · exact ih st hnd' htail hmem
    | true =>
      have hsome : (slackClients.lookup e.1).isSome = true := by
        simp only [qualifies, Bool.and_eq_true] at hq
        exact hq.2
      obtain ⟨client, hc⟩ := Option.isSome_iff_exists.1 hsome
      obtain ⟨hw, _, hok, hfail⟩ :=
        handleAlert_qualifying L W c slackClients pod event e.1 e.2 st client hq hc
      rw [List.filter_cons_of_pos hq]
      simp only [notifierRun, hc, List.mem_cons]
      rcases List.mem_cons.1 hin with heq | htail
      · subst heq
        have hrest := handleAlerts_other L W c slackClients pod event k l
          (handleAlert L W c slackClients pod event k a st) hfresh
        have hkin : k ∈ st.alertConfigs := AList.lookup_isSome.1 (by simp [hmem])
        constructor
        · intro call hcall hk
          rcases hcall with h0 | hrestcall
          · subst h0
            constructor
            · intro hres
              rw [hrest.1, hok hres]
              exact lookup_replace_self _ _ hkin
            · intro hres
              rw [hrest.1, hfail hres]
              exact hmem
          · exact absurd (hk ▸ notifierRun_key_mem L W c slackClients pod event l _ call
              hrestcall) hfresh
        · intro hno
          exact absurd rfl (hno _ (Or.inl rfl))
      · have hkin : k ∈ l.keys := List.mem_keys_of_mem htail
        have hne : k ≠ e.1 := fun h => hfresh (h ▸ hkin)
        have h1 := handleAlert_other L W c slackClients pod event k e.1 e.2 st hne
        have h := ih (handleAlert L W c slackClients pod event e.1 e.2 st) hnd' htail
          (h1.1.trans hmem)
        rw [hw] at h
        constructor
        · intro call hcall hk
          rcases hcall with h0 | hrestcall
          · subst h0
            exact absurd hk.symm hne
          · exact h.1 call hrestcall hk
        · intro hno
          exact h.2 (fun call hcall => hno call (Or.inr hcall))

theorem wrapInt32_succ (x : Int) (hlo : -2147483648 ≤ x) (hhi : x < 2147483647) :
    wrapInt32 (x + 1) = x + 1 := by
  unfold wrapInt32
  omega

/-- Counterexample to C6 as stated: for a record whose `EventCount` is
2147483647 the notifier call succeeds (the line "Sent pod restart alert" is
written) and the stored `EventCount` becomes -2147483648, not 2147483648. -/
theorem handlePodRestartEvent_count_wraps :
    (handlePodRestartEvent demoLibrary scriptWorld (scriptWorld.cluster baseScript)
      (UpdateAlertConfig NewPodEventWatcher
        { appAlerts with Status := { appAlerts.Status with EventCount := 2147483647 } })
      baseScript backOffEvent).log = [.sent "ns/app-alerts" "worker-1" "ns"] ∧
    ((handlePodRestartEvent demoLibrary scriptWorld (scriptWorld.cluster baseScript)
      (UpdateAlertConfig NewPodEventWatcher
        { appAlerts with Status := { appAlerts.Status with EventCount := 2147483647 } })
      baseScript backOffEvent).watcher.alertConfigs.lookup "ns/app-alerts").map
        (fun a => a.Status.EventCount) = some (-2147483648) ∧
    (-2147483648 : Int) ≠ 2147483647 + 1 := by
  refine ⟨by decide, by decide, by decide⟩

/-- C6, amended: for every record held at a key, with the notifier calls of the
event being those of `eventCalls` (the world the event leaves is the world they
leave): when the call for the key returned no error, the record now stored has
`EventCount` advanced by one in `int32` arithmetic (by exactly one when the old
count is below 2147483647; from 2147483647 it wraps to -2147483648),
`LastEventTime` set to the clock read when the call returned, and every other
field unchanged; when the call for the key returned an error, or no call was
made for the key, or the pod lookup failed, the stored record is unchanged.
The handles are unchanged. -/
theorem handlePodRestartEvent_status {σ : Type} (L : Library) (W : World σ) (c : Cluster)
    (w : PodEventWatcher) (s : σ) (event : Event) (key : String) (alert : SlackAlert)
    (hrec : w.alertConfigs.lookup key = some alert) :
    (handlePodRestartEvent L W c w s event).watcher.slackClients = w.slackClients ∧
    (c.getPod event.InvolvedObject.Namespace event.InvolvedObject.Name = none →
      (handlePodRestartEvent L W c w s event).watcher.alertConfigs.lookup key = some alert) ∧
    (∀ pod, c.getPod event.InvolvedObject.Namespace event.InvolvedObject.Name = some pod →
      (handlePodRestartEvent L W c w s event).world = (eventCalls L W c w s pod event).2 ∧
      (∀ call ∈ (eventCalls L W c w s pod event).1, call.key = key →
        call.alert = alert ∧ w.slackClients.lookup key = some call.client ∧
        ((call.result L W pod event).1 = none →
          ∃ alert', (handlePodRestartEvent L W c w s event).watcher.alertConfigs.lookup key =
              some alert' ∧
            alert'.Status.EventCount = wrapInt32 (alert.Status.EventCount + 1) ∧
            (-2147483648 ≤ alert.Status.EventCount → alert.Status.EventCount < 2147483647 →
              alert'.Status.EventCount = alert.Status.EventCount + 1) ∧
            alert'.Status.LastEventTime = some (W.now (call.result L W pod event).2) ∧
            alert'.Status.Conditions = alert.Status.Conditions ∧
            alert'.Spec = alert.Spec ∧ alert'.Namespace = alert.Namespace ∧
            alert'.Name = alert.Name) ∧
        ((call.result L W pod event).1 ≠ none →
          (handlePodRestartEvent L W c w s event).watcher.alertConfigs.lookup key =
            some alert)) ∧
      ((∀ call ∈ (eventCalls L W c w s pod event).1, call.key ≠ key) →
        (handlePodRestartEvent L W c w s event).watcher.alertConfigs.lookup key =
          some alert)) := by
  refine ⟨?_, ?_, ?_⟩
  · unfold handlePodRestartEvent
    split <;> rfl
  · intro hpod
    simp [handlePodRestartEvent, hpod, hrec]
  · intro pod hpod
    have hin : Sigma.mk key alert ∈ w.alertConfigs.entries :=
      AList.mem_lookup_iff.1 (by simp [hrec])
    have href := handleAlerts_refines L W c w.slackClients pod event w.alertConfigs.entries
      { alertConfigs := w.alertConfigs, log := [], world := s }
    have hrecd := handleAlerts_record L W c w.slackClients pod event key alert
      w.alertConfigs.entries { alertConfigs := w.alertConfigs, log := [], world := s }
      w.alertConfigs.nodupKeys hin hrec
    simp only [handlePodRestartEvent, hpod, eventCalls]
    refine ⟨href.1, ?_, hrecd.2⟩
    intro call hcall hk
    obtain ⟨hmemc, hcl⟩ := notifierRun_call_mem L W w.slackClients pod event _ s call hcall
    have hl : call.alert ∈ w.alertConfigs.lookup call.key :=
      AList.mem_lookup_iff.2 (List.mem_filter.1 hmemc).1
    have halert : call.alert = alert := by
      rw [hk, hrec] at hl
      simpa using hl.symm
    refine ⟨halert, hk ▸ hcl, ?_, (hrecd.1 call hcall hk).2⟩
    intro hres
    refine ⟨_, (hrecd.1 call hcall hk).1 hres, rfl, ?_, rfl, rfl, rfl, rfl, rfl⟩
    intro hlo hhi
    exact wrapInt32_succ _ hlo hhi

/-- Witness of C6: with the record `ns/app-alerts` in the registry, the one
notifier call of a `BackOff` event on `ns/worker-1` leaves the record unchanged
when the webhook answers 500; when it answers 200 a record with `EventCount` 7
is left with `EventCount` 8 and `LastEventTime` the clock of the script. -/
theorem handlePodRestartEvent_status_witness :
    (handlePodRestartEvent demoLibrary scriptWorld (scriptWorld.cluster baseScript)
      (UpdateAlertConfig NewPodEventWatcher appAlerts)
      { baseScript with posts := [.response 500] } backOffEvent).watcher.alertConfigs.lookup
        "ns/app-alerts" = some appAlerts ∧
    (∃ alert', (handlePodRestartEvent demoLibrary scriptWorld (scriptWorld.cluster baseScript)
      (UpdateAlertConfig NewPodEventWatcher
        { appAlerts with Status := { appAlerts.Status with EventCount := 7 } })
      baseScript backOffEvent).watcher.alertConfigs.lookup "ns/app-alerts" = some alert' ∧
      alert'.Status.EventCount = 7 + 1 ∧
      alert'.Status.LastEventTime = some 5000000000) := by
  constructor
  · exact ((handlePodRestartEvent_status demoLibrary scriptWorld
      (scriptWorld.cluster baseScript) (UpdateAlertConfig NewPodEventWatcher appAlerts)
      { baseScript with posts := [.response 500] } backOffEvent "ns/app-alerts" appAlerts
      (by decide)).2.2 worker1 (by decide)).2.1
      { key := "ns/app-alerts", alert := appAlerts,
        client := NewClient "https://hooks.example/T1",
        before := { baseScript with posts := [.response 500] } }
      (by decide) rfl |>.2.2.2 (by decide)
  · obtain ⟨alert', hl, _, hcount, htime, _⟩ :=
      ((handlePodRestartEvent_status demoLibrary scriptWorld
        (scriptWorld.cluster baseScript)
        (UpdateAlertConfig NewPodEventWatcher
          { appAlerts with Status := { appAlerts.Status with EventCount := 7 } })
        baseScript backOffEvent "ns/app-alerts"
        { appAlerts with Status := { appAlerts.Status with EventCount := 7 } }
        (by decide)).2.2 worker1 (by decide)).2.1
        { key := "ns/app-alerts",
          alert := { appAlerts with Status := { appAlerts.Status with EventCount := 7 } },
          client := NewClient "https://hooks.example/T1", before := baseScript }
        (by decide) rfl |>.2.2.1 (by decide)
    exact ⟨alert', hl, hcount (by decide) (by decide), htime⟩

/-! ### Watch loop -/

theorem watchFrom_open_failed {σ : Type} (L : Library) (W : World σ) (fuel : Nat)
    (w : PodEventWatcher) (s s1 : σ) (cause : String) (h : W.Watch s = (some cause, s1)) :
    watchFrom L W (fuel + 1) false w s =
      { outcome := .returned (.createFailed cause), streaming := false, watcher := w,
        log := [], world := s1 } := by
  rw [watchFrom, h]

theorem watchFrom_opened {σ : Type} (L : Library) (W : World σ) (fuel : Nat)
    (w : PodEventWatcher) (s s1 : σ) (h : W.Watch s = (none, s1)) :
    watchFrom L W (fuel + 1) false w s = (watchFrom L W fuel true w s1).after [.started] := by
  rw [watchFrom, h]

theorem watchFrom_ctxDone {σ : Type} (L : Library) (W : World σ) (fuel : Nat)
    (w : PodEventWatcher) (s s1 : σ) (err : CtxError) (h : W.Select s = (.ctxDone err, s1)) :
    watchFrom L W (fuel + 1) true w s =
      { outcome := .returned (.ctx err), streaming := true, watcher := w, log := [],
        world := s1 } := by
  rw [watchFrom, h]

theorem watchFrom_closed {σ : Type} (L : Library) (W : World σ) (fuel : Nat)
    (w : PodEventWatcher) (s s1 : σ) (h : W.Select s = (.closed, s1)) :
    watchFrom L W (fuel + 1) true w s =
      (watchFrom L W fuel false w s1).after [.channelClosed] := by
  rw [watchFrom, h]

theorem watchFrom_other {σ : Type} (L : Library) (W : World σ) (fuel : Nat)
    (w : PodEventWatcher) (s s1 : σ) (h : W.Select s = (.result .other, s1)) :
    watchFrom L W (fuel + 1) true w s = watchFrom L W fuel true w s1 := by
  rw [watchFrom, h]

theorem watchFrom_event {σ : Type} (L : Library) (W : World σ) (fuel : Nat)
    (w : PodEventWatcher) (s s1 : σ) (ev : Event)
    (h : W.Select s = (.result (.event ev), s1)) :
    watchFrom L W (fuel + 1) true w s =
      if isPodRestartEvent L ev = true then
        (watchFrom L W fuel true (handlePodRestartEvent L W (W.cluster s1) w s1 ev).watcher
          (handlePodRestartEvent L W (W.cluster s1) w s1 ev).world).after
          (.detected ev.InvolvedObject.Name ev.InvolvedObject.Namespace ev.Reason ::
            (handlePodRestartEvent L W (W.cluster s1) w s1 ev).log ++
            (match (handlePodRestartEvent L W (W.cluster s1) w s1 ev).err with
              | some _ => [LogEntry.handleFailed ev.Name ev.InvolvedObject.Name]
              | none => []))
      else watchFrom L W fuel true w s1 := by
  rw [watchFrom, h]

theorem watchFrom_returned_cause {σ : Type} (L : Library) (W : World σ) (fuel : Nat)
    (streaming : Bool) (w : PodEventWatcher) (s : σ) (e : WatchError)
    (h : (watchFrom L W fuel streaming w s).outcome = .returned e) :
    ∃ n, n < fuel ∧ (watchFrom L W n streaming w s).outcome = .running ∧
      (((watchFrom L W n streaming w s).streaming = true ∧
          ∃ err, (W.Select (watchFrom L W n streaming w s).world).1 = .ctxDone err ∧
            e = .ctx err) ∨
        ((watchFrom L W n streaming w s).streaming = false ∧
          ∃ cause, (W.Watch (watchFrom L W n streaming w s).world).1 = some cause ∧
            e = .createFailed cause)) := by
  induction fuel generalizing streaming w s with
  | zero => simp [watchFrom] at h
  | succ fuel ih =>
    cases streaming with
    | false =>
      rcases hw : W.Watch s with ⟨o, s'⟩
      cases o with
      | some cause =>
        rw [watchFrom_open_failed L W fuel w s s' cause hw] at h
        simp only [WatchOutcome.returned.injEq] at h
        refine ⟨0, Nat.succ_pos _, rfl, Or.inr ⟨rfl, cause, ?_, h.symm⟩⟩
        simp [watchFrom, hw]
      | none =>
        rw [watchFrom_opened L W fuel w s s' hw] at h
        obtain ⟨n, hn, hrun, hcause⟩ := ih true w s' h
        refine ⟨n + 1, Nat.succ_lt_succ hn, ?_, ?_⟩
        · rw [watchFrom_opened L W n w s s' hw]
          exact hrun
        · rw [watchFrom_opened L W n w s s' hw]
          exact hcause
    | true =>
      rcases hsel : W.Select s with ⟨sig, s'⟩
      cases sig with
      | ctxDone err =>
        rw [watchFrom_ctxDone L W fuel w s s' err hsel] at h
        simp only [WatchOutcome.returned.injEq] at h
        refine ⟨0, Nat.succ_pos _, rfl, Or.inl ⟨rfl, err, ?_, h.symm⟩⟩
        simp [watchFrom, hsel]
      | closed =>
        rw [watchFrom_closed L W fuel w s s' hsel] at h
        obtain ⟨n, hn, hrun, hcause⟩ := ih false w s' h
        refine ⟨n + 1, Nat.succ_lt_succ hn, ?_, ?_⟩
        · rw [watchFrom_closed L W n w s s' hsel]
          exact hrun
        · rw [watchFrom_closed L W n w s s' hsel]
          exact hcause
      | result obj =>
        cases obj with
        | other =>
          rw [watchFrom_other L W fuel w s s' hsel] at h
          obtain ⟨n, hn, hrun, hcause⟩ := ih true w s' h
          refine ⟨n + 1, Nat.succ_lt_succ hn, ?_, ?_⟩
          · rw [watchFrom_other L W n w s s' hsel]
            exact hrun
          · rw [watchFrom_other L W n w s s' hsel]
            exact hcause
        | event ev =>
          rw [watchFrom_event L W fuel w s s' ev hsel] at h
          by_cases hq : isPodRestartEvent L ev = true
          · rw [if_pos hq] at h
            obtain ⟨n, hn, hrun, hcause⟩ := ih true _ _ h
            refine ⟨n + 1, Nat.succ_lt_succ hn, ?_, ?_⟩
            · rw [watchFrom_event L W n w s s' ev hsel, if_pos hq]
              exact hrun
            · rw [watchFrom_event L W n w s s' ev hsel, if_pos hq]
              exact hcause
          · rw [if_neg hq] at h
            obtain ⟨n, hn, hrun, hcause⟩ := ih true w s' h
            refine ⟨n + 1, Nat.succ_lt_succ hn, ?_, ?_⟩
            · rw [watchFrom_event L W n w s s' ev hsel, if_neg hq]
              exact hrun
            · rw [watchFrom_event L W n w s s' ev hsel, if_neg hq]
              exact hcause

/-- C10: a run of `WatchPodEvents` is fixed step by step.  A failed `Watch`
makes it return the wrapped error of the open; after a successful `Watch` it
goes on at the head of the loop.  There a done context makes it return
`ctx.Err()`; a closed channel makes it re-enter `WatchPodEvents` with the same
registry, so that a successful open puts it back at the head of the loop; an
object of another type, an event that does not qualify, and a handled event,
whether `handlePodRestartEvent` returned an error or not, are followed by the
next pass of the loop.  Hence a run that has returned `e` was, some steps
before, still running at a point where the context was done with error `e` or
the open failed with the error `e` wraps; and in a world where every watch
opens and the context is never done the run never returns. -/
theorem WatchPodEvents_returns_only_on_cancel_or_open_failure {σ : Type} (L : Library)
    (W : World σ) :
    (∀ fuel w s s1 cause, W.Watch s = (some cause, s1) →
      WatchPodEvents L W (fuel + 1) w s =
        { outcome := .returned (.createFailed cause), streaming := false, watcher := w,
          log := [], world := s1 }) ∧
    (∀ fuel w s s1, W.Watch s = (none, s1) →
      WatchPodEvents L W (fuel + 1) w s = (watchFrom L W fuel true w s1).after [.started]) ∧
    (∀ fuel w s s1 err, W.Select s = (.ctxDone err, s1) →
      watchFrom L W (fuel + 1) true w s =
        { outcome := .returned (.ctx err), streaming := true, watcher := w, log := [],
          world := s1 }) ∧
    (∀ fuel w s s1, W.Select s = (.closed, s1) →
      watchFrom L W (fuel + 1) true w s =
        (WatchPodEvents L W fuel w s1).after [.channelClosed]) ∧
    (∀ fuel w s s1 s2, W.Select s = (.closed, s1) → W.Watch s1 = (none, s2) →
      watchFrom L W (fuel + 2) true w s =
        (watchFrom L W fuel true w s2).after [.channelClosed, .started]) ∧
    (∀ fuel w s s1, W.Select s = (.result .other, s1) →
      watchFrom L W (fuel + 1) true w s = watchFrom L W fuel true w s1) ∧
    (∀ fuel w s s1 ev, W.Select s = (.result (.event ev), s1) →
      isPodRestartEvent L ev = false →
      watchFrom L W (fuel + 1) true w s = watchFrom L W fuel true w s1) ∧
    (∀ fuel w s s1 ev, W.Select s = (.result (.event ev), s1) →
      isPodRestartEvent L ev = true →
      watchFrom L W (fuel + 1) true w s =
        (watchFrom L W fuel true (handlePodRestartEvent L W (W.cluster s1) w s1 ev).watcher
          (handlePodRestartEvent L W (W.cluster s1) w s1 ev).world).after
          (.detected ev.InvolvedObject.Name ev.InvolvedObject.Namespace ev.Reason ::
            (handlePodRestartEvent L W (W.cluster s1) w s1 ev).log ++
            (match (handlePodRestartEvent L W (W.cluster s1) w s1 ev).err with
              | some _ => [LogEntry.handleFailed ev.Name ev.InvolvedObject.Name]
              | none => []))) ∧
    (∀ fuel w s e, (WatchPodEvents L W fuel w s).outcome = .returned e →
      ∃ n, n < fuel ∧ (WatchPodEvents L W n w s).outcome = .running ∧
        (((WatchPodEvents L W n w s).streaming = true ∧
            ∃ err, (W.Select (WatchPodEvents L W n w s).world).1 = .ctxDone err ∧
              e = .ctx err) ∨
          ((WatchPodEvents L W n w s).streaming = false ∧
            ∃ cause, (W.Watch (WatchPodEvents L W n w s).world).1 = some cause ∧
              e = .createFailed cause))) ∧
    ((∀ s, (W.Watch s).1 = none) → (∀ s err, (W.Select s).1 ≠ .ctxDone err) →
      ∀ fuel w s, (WatchPodEvents L W fuel w s).outcome = .running) := by
  refine ⟨?_, ?_, ?_, ?_, ?_, ?_, ?_, ?_, ?_, ?_⟩
  · intro fuel w s s1 cause h
    exact watchFrom_open_failed L W fuel w s s1 cause h
  · intro fuel w s s1 h
    exact watchFrom_opened L W fuel w s s1 h
  · intro fuel w s s1 err h
    exact watchFrom_ctxDone L W fuel w s s1 err h
  · intro fuel w s s1 h
    exact watchFrom_closed L W fuel w s s1 h
  · intro fuel w s s1 s2 h1 h2
    rw [watchFrom_closed L W (fuel + 1) w s s1 h1, watchFrom_opened L W fuel w s1 s2 h2]
    simp [WatchRun.after]
  · intro fuel w s s1 h
    exact watchFrom_other L W fuel w s s1 h
  · intro fuel w s s1 ev h hq
    rw [watchFrom_event L W fuel w s s1 ev h, hq]
    simp
  · intro fuel w s s1 ev h hq
    rw [watchFrom_event L W fuel w s s1 ev h, if_pos hq]
  · intro fuel w s e h
    exact watchFrom_returned_cause L W fuel false w s e h
  · intro hW hS fuel w s
    cases hout : (WatchPodEvents L W fuel w s).outcome with
    | running => rfl
    | returned e =>
      obtain ⟨n, _, _, hcause⟩ := watchFrom_returned_cause L W fuel false w s e hout
      rcases hcause with ⟨_, err, h, _⟩ | ⟨_, cause, h, _⟩
      · exact absurd h (hS _ err)
      · rw [hW _] at h
        cases h

/-- Witness of C10: in a world that keeps closing the channel and delivering
events whose pod lookup fails, 60 steps of `WatchPodEvents` have not returned;
on a script whose first `Watch` fails the run returns the wrapped error of the
open; and on a script whose channel delivers a `BackOff` event, closes, delivers
an object of another type and then has the context cancelled, the run handles
the event, reopens the watch and returns the error of the context. -/
theorem WatchPodEvents_returns_only_on_cancel_or_open_failure_witness :
    (WatchPodEvents demoLibrary churnWorld 60
      (UpdateAlertConfig NewPodEventWatcher appAlerts) 0).outcome = .running ∧
    WatchPodEvents demoLibrary scriptWorld 1 NewPodEventWatcher
      { baseScript with watches := [some "forbidden"] } =
      { outcome := .returned (.createFailed "forbidden"), streaming := false,
        watcher := NewPodEventWatcher, log := [],
        world := { baseScript with watches := [] } } ∧
    ((WatchPodEvents demoLibrary scriptWorld 6 (UpdateAlertConfig NewPodEventWatcher appAlerts)
      { baseScript with
        signals := [.result (.event backOffEvent), .closed, .result .other,
          .ctxDone .canceled] }).outcome = .returned (.ctx .canceled) ∧
     (WatchPodEvents demoLibrary scriptWorld 6 (UpdateAlertConfig NewPodEventWatcher appAlerts)
      { baseScript with
        signals := [.result (.event backOffEvent), .closed, .result .other,
          .ctxDone .canceled] }).log =
      [.started, .detected "worker-1" "ns" "BackOff", .sent "ns/app-alerts" "worker-1" "ns",
        .channelClosed, .started]) :=
  ⟨(WatchPodEvents_returns_only_on_cancel_or_open_failure demoLibrary churnWorld).2.2.2.2.2.2.2.2.2
    (fun _ => rfl)
    (fun n err => by
      simp only [churnWorld]
      split
      · simp
      · split <;> simp)
    60 (UpdateAlertConfig NewPodEventWatcher appAlerts) 0,
   (WatchPodEvents_returns_only_on_cancel_or_open_failure demoLibrary scriptWorld).1 0
    NewPodEventWatcher { baseScript with watches := [some "forbidden"] }
    { baseScript with watches := [] } "forbidden" rfl,
   by decide, by decide⟩

end PodRestartOperator
